import Mathlib

/-! ## aqi-weather: search controller, reading cache and lookup pipeline

A shallow embedding of `src/script.js`.  Module-level variables and the parts
of the DOM the controller reads back become fields of `State`; the network is
an explicit oracle (`Env`); every `fetch`, `alert` and `updateUI` call is
recorded in a log field so that effects can be stated: `requests` holds the
requests of `getAQI` and `fetchSuggestions`, `nearbyCalls` the map requests of
`fetchNearbyStations`.  Whether `new RegExp` accepts a text as a pattern is a
parameter (`compiles`) of the functions that render suggestions, and the
theorems about them hold for every such parameter.
-/

namespace AqiWeather

/-! ## Strings

JavaScript string primitives, written over the character list so that they
evaluate by structural recursion. -/

/-- `s.toLowerCase()`, on the ASCII letters. -/
def toLowerCase (s : String) : String := String.mk (s.data.map Char.toLower)

/-- The characters `s.trim()` strips: the ECMAScript white space and line
terminator code points. -/
def isJsWhitespace (c : Char) : Bool :=
  let n := c.toNat
  (9 ≤ n && n ≤ 13) || n == 32 || n == 160 || n == 5760 || (8192 ≤ n && n ≤ 8202)
    || n == 8232 || n == 8233 || n == 8239 || n == 8287 || n == 12288 || n == 65279

/-- `s.trim()`: whitespace removed from both ends. -/
def jsTrim (s : String) : String :=
  String.mk ((s.data.dropWhile isJsWhitespace).reverse.dropWhile isJsWhitespace).reverse

/-- `s.length`: the number of UTF-16 code units. -/
def jsLength (s : String) : Nat :=
  s.data.foldl (fun n c => n + (if c.toNat < 65536 then 1 else 2)) 0

/-- `s.startsWith(p)`. -/
def startsWith (s p : String) : Bool := p.data.isPrefixOf s.data

/-- `s.substring(1)`. -/
def substring1 (s : String) : String := String.mk (s.data.drop 1)

/-- `s.split(',')[0]`: the part of `s` before its first comma. -/
def firstPart (s : String) : String := String.mk (s.data.takeWhile (fun c => c != ','))

/-- `a || b` on strings: the empty string is falsy. -/
def strOr (a b : String) : String := if a = "" then b else a

/-! ## Data model -/

/-- `CACHE_DURATION` (script.js 3): 30 minutes in ms. -/
def CACHE_DURATION : Int := 30 * 60 * 1000

/-- The `city` object of a reading; either field may be absent. Coordinates
are kept as decimal literals, the code only passes them on. -/
structure City where
  name : Option String
  geo : List String
deriving DecidableEq, Repr

/-- The `data` object of a feed response, restricted to the fields that
`getAQI`, `updateUI` and `toggleFavorite` read or write. `aqi = none` stands
for `undefined`, `null` or "-". -/
structure Reading where
  aqi : Option Int
  city : Option City
  isNearest : Bool
  searchedName : Option String
deriving DecidableEq, Repr

/-- A feed response envelope: `status` and, when present, `data`. -/
structure ApiResponse where
  status : String
  data : Option Reading
deriving DecidableEq, Repr

/-- One geocoding candidate (`lat`, `lon` as received). -/
structure Candidate where
  lat : String
  lon : String
  display_name : String
deriving DecidableEq, Repr

/-- One entry of a search response: `uid` and `station.name`. -/
structure Suggestion where
  uid : Int
  stationName : String
deriving DecidableEq, Repr

/-- A search response envelope; `data = none` when it is not an array. -/
structure SearchResponse where
  status : String
  data : Option (List Suggestion)
deriving DecidableEq, Repr

/-- Result of `await fetch(..)` followed by `await response.json()`: either an
exception (`threw true` when it is a `TypeError` whose message mentions
"fetch") or the parsed body. -/
inductive Fetched (α : Type) where
  | threw (isFetchTypeError : Bool)
  | json (body : α)
deriving DecidableEq, Repr

/-- The requests the client issues, by endpoint and argument (URL encoding is
left to the transport). -/
inductive Request where
  | feedStation (id : String)
  | feedName (city : String)
  | feedGeo (lat lon : String)
  | geocode (q : String)
  | search (keyword : String)
deriving DecidableEq, Repr

/-- The three `alert` calls of `getAQI`. -/
inductive Alert where
  | notFound (city : String)
  | network
  | appError
deriving DecidableEq, Repr

/-- A value held by `localStorage` under a key starting with "aqi_": a reading
cache entry, or the JSON array of favourites or recents. -/
inductive StoreVal where
  | entry (timestamp : Int) (data : Reading)
  | names (xs : List String)
deriving DecidableEq, Repr

/-- A rendered `.autocomplete-item[role="option"]` element: its label and the
key its click handler passes to `getAQI`. -/
structure Item where
  cityName : String
  cityKey : String
deriving DecidableEq, Repr

/-- Keys the keydown listeners distinguish. -/
inductive Key where
  | arrowDown | arrowUp | enter | escape | other
deriving DecidableEq, Repr

/-- Module variables (script.js 8-13), persisted state, the DOM state that the
controller reads back, and logs of the effects. -/
structure State where
  localStorage : List (String × StoreVal)
  lastCity : Option String
  favorites : List String
  recentSearches : List String
  currentCityData : Option Reading
  selectedIndex : Int
  currentSuggestions : List Suggestion
  suggestionCache : List (String × List Suggestion)
  inputValue : String
  listActive : Bool
  items : List Item
  cityNameText : String
  categoryText : String
  favActive : Bool
  pendingTimer : Option String
  inFlight : List String
  requests : List Request
  alerts : List Alert
  uiCalls : List (Option Reading)
  nearbyCalls : List (String × String)
  lookups : List String
  uncaught : Nat
deriving DecidableEq, Repr

/-- The network and the clock, as seen by one `getAQI` call. -/
structure Env where
  now : Int
  nowAtSave : Int
  feed : Request → Fetched ApiResponse
  geocode : String → Fetched (Option (List Candidate))

/-- State at page load with empty storage. -/
def initialState : State :=
  { localStorage := [], lastCity := none, favorites := [], recentSearches := [],
    currentCityData := none, selectedIndex := -1, currentSuggestions := [],
    suggestionCache := [], inputValue := "", listActive := false, items := [],
    cityNameText := "", categoryText := "", favActive := false,
    pendingTimer := none, inFlight := [], requests := [], alerts := [],
    uiCalls := [], nearbyCalls := [], lookups := [], uncaught := 0 }

/-! ## Storage -/

/-- `localStorage.getItem(key)` / `suggestionCache[key]`. -/
def getItem {α : Type} (store : List (String × α)) (key : String) : Option α :=
  (store.find? (fun kv => kv.1 == key)).map (fun kv => kv.2)

/-- `localStorage.setItem(key, v)` / `suggestionCache[key] = v`: overwrite. -/
def setItem {α : Type} (store : List (String × α)) (key : String) (v : α) :
    List (String × α) :=
  (key, v) :: store.filter (fun kv => kv.1 != key)

/-! ## Recent history -/

/-- `saveToRecents` (script.js 658-663) on the `recentSearches` variable:
`filter(c => c !== city)`, `unshift(city)`, `slice(0, 5)`. -/
def saveToRecents (city : String) (recentSearches : List String) : List String :=
  (city :: recentSearches.filter (fun c => c != city)).take 5

/-- `saveToRecents` with its write to `localStorage` (script.js 662). -/
def saveToRecentsSt (city : String) (st : State) : State :=
  let recents := saveToRecents city st.recentSearches
  { st with recentSearches := recents,
            localStorage := setItem st.localStorage "aqi_recents" (.names recents) }

/-! ## Presentation -/

/-- `getAQICategory(aqi).text` (script.js 220-227). -/
def getAQICategory (aqi : Int) : String :=
  if aqi ≤ 50 then "Good"
  else if aqi ≤ 100 then "Moderate"
  else if aqi ≤ 150 then "Unhealthy for Sensitive Groups"
  else if aqi ≤ 200 then "Unhealthy"
  else if aqi ≤ 300 then "Very Unhealthy"
  else "Hazardous"

/-- The `cityName` that `updateUI` shows and tests against the favourites
(script.js 179-181). -/
def displayName (data : Reading) : String :=
  if data.isNearest && (data.searchedName.getD "" != "") then data.searchedName.getD ""
  else
    match data.city.bind (fun c => c.name) with
    | some n => if n != "" then firstPart n else "Unknown"
    | none => "Unknown"

/-- `updateUI(data)` (script.js 154-218): every call is logged in `uiCalls`;
a reading without AQI only shows "Data Unavailable". -/
def updateUI (data : Option Reading) (st : State) : State :=
  let st := { st with uiCalls := st.uiCalls ++ [data] }
  match data with
  | none => st
  | some d =>
    match d.aqi with
    | none => { st with categoryText := "Data Unavailable" }
    | some aqi =>
      { st with cityNameText := displayName d,
                categoryText := getAQICategory aqi,
                favActive := st.favorites.contains (displayName d),
                currentCityData := some d }

/-! ## Lookup pipeline -/

/-- `cityOverride || cityInput || "Pune"` (script.js 61-62). -/
def resolveCity (cityOverride : Option String) (inputValue : String) : String :=
  strOr (cityOverride.getD "") (strOr (jsTrim inputValue) "Pune")

/-- The cache key of a query (script.js 68). -/
def cacheKey (city : String) : String := "aqi_" ++ toLowerCase city

/-- The cache check (script.js 69-79): the stored reading when the item is an
entry with `now - timestamp < CACHE_DURATION`. An array has no `timestamp`,
the comparison with `NaN` is false. -/
def freshCached (now : Int) (cached : Option StoreVal) : Option Reading :=
  match cached with
  | some (.entry timestamp data) =>
    if now - timestamp < CACHE_DURATION then some data else none
  | _ => none

/-- The direct provider request for a query (script.js 81-83). -/
def searchUrl (city : String) : Request :=
  if startsWith city "@" then .feedStation (substring1 city) else .feedName city

/-- Record a `fetch` call. -/
def issue (r : Request) (st : State) : State :=
  { st with requests := st.requests ++ [r] }

/-- The `catch` block of `getAQI` (script.js 137-148): one alert. -/
def catchError (isFetchTypeError : Bool) (st : State) : State :=
  { st with alerts := st.alerts ++ [if isFetchTypeError then Alert.network else Alert.appError] }

/-- The geocoding fallback (script.js 88-108), given the response `data` of
the direct request: the state with the requests issued, and the response the
pipeline goes on with, or the exception thrown on the way. -/
def geocodeFallback (env : Env) (city : String) (data : ApiResponse) (st : State) :
    State × Except Bool ApiResponse :=
  if data.status != "ok" && !startsWith city "@" && !startsWith city "geo:" then
    let st := issue (.geocode city) st
    match env.geocode city with
    | .threw e => (st, .error e)
    | .json geoData =>
      match geoData with
      | some (cand :: _) =>
        let st := issue (.feedGeo cand.lat cand.lon) st
        match env.feed (.feedGeo cand.lat cand.lon) with
        | .threw e => (st, .error e)
        | .json data2 =>
          if data2.status == "ok" then
            match data2.data with
            | some r =>
              (st, .ok { data2 with
                data := some { r with isNearest := true, searchedName := some city } })
            | none => (st, .error false)
          else (st, .ok data2)
      | _ => (st, .ok data)
  else (st, .ok data)

/-- The name `getAQI` hands to `saveToRecents` (script.js 128). -/
def safeCityName (c : City) (city : String) : String :=
  match c.name with
  | some n => if n != "" then firstPart n else city
  | none => city

/-- `fetchNearbyStations(lat, lon)` (script.js 332-345) up to its `await`: it
issues one request, to `/api/map/bounds`, whose answer only feeds the map.
The request is logged in `nearbyCalls`, by the centre of the bounds. -/
@[simp] def fetchNearbyStations (lat lon : String) (st : State) : State :=
  { st with nearbyCalls := st.nearbyCalls ++ [(lat, lon)] }

/-- Validation and persistence (script.js 110-135) of the response the
pipeline ended with. -/
def finishLookup (env : Env) (city : String) (data : ApiResponse) (st : State) : State :=
  if data.status != "ok" then
    { st with alerts := st.alerts ++ [Alert.notFound city] }
  else
    match data.data with
    | none => catchError false st
    | some r =>
      match r.city with
      | none => catchError false st
      | some c =>
        let st := { st with
          localStorage := setItem st.localStorage (cacheKey city) (.entry env.nowAtSave r) }
        let st := { st with lastCity := some city }
        let st := saveToRecentsSt (safeCityName c city) st
        let st := updateUI (some r) st
        match c.geo with
        | lat :: lon :: _ => fetchNearbyStations lat lon st
        | _ => st

/-- `getAQI(cityOverride)` (script.js 60-152), run to completion against the
oracle `env`. The requests that `getAQI` issues itself are logged in
`requests`, the map request of `fetchNearbyStations` in `nearbyCalls`. -/
def getAQI (env : Env) (cityOverride : Option String) (st : State) : State :=
  let city := resolveCity cityOverride st.inputValue
  match freshCached env.now (getItem st.localStorage (cacheKey city)) with
  | some data => updateUI (some data) st
  | none =>
    let st := issue (searchUrl city) st
    match env.feed (searchUrl city) with
    | .threw e => catchError e st
    | .json data =>
      match geocodeFallback env city data st with
      | (st, .error e) => catchError e st
      | (st, .ok data) => finishLookup env city data st

/-! ## Search controller -/

/-- The point where the controller calls `getAQI(cityOverride)`: the query the
call resolves (script.js 61-62) is logged in `lookups`; the call itself is
`getAQI` above and touches no controller variable. -/
def dispatchLookup (cityOverride : Option String) (st : State) : State :=
  { st with lookups := st.lookups ++ [resolveCity cityOverride st.inputValue] }

/-- `closeSuggestions` (script.js 546-555). -/
def closeSuggestions (st : State) : State :=
  { st with listActive := false, selectedIndex := -1 }

/-- `createSearchItem(cityName, country, cityKey, ..)` (script.js 622-656). -/
def createSearchItem (cityName cityKey : String) : Item := ⟨cityName, cityKey⟩

/-- The item `renderSuggestions` builds for one suggestion (script.js 592-595). -/
def suggestionItem (s : Suggestion) : Item :=
  createSearchItem (jsTrim (firstPart s.stationName)) ("@" ++ toString s.uid)

/-- Whether `renderSuggestions(false)` throws. For every suggestion
`createSearchItem` is called with the trimmed input text as `query`, and for a
non-empty `query` it evaluates `new RegExp("(" + query + ")", "gi")`
(script.js 630-632), which throws a SyntaxError when that is not a valid
pattern. `compiles query` says that the constructor returns; it is a
parameter of the model. -/
def highlightThrows (compiles : String → Bool) (st : State) : Bool :=
  !st.currentSuggestions.isEmpty && jsTrim st.inputValue != ""
    && !compiles (jsTrim st.inputValue)

/-- `renderSuggestions(isInitial)` (script.js 557-604): the option items are
rebuilt; `selectedIndex` is written only through `closeSuggestions`. When the
first `createSearchItem` throws (see `highlightThrows`) the list has been
emptied and is left so, and the class `active` is not added. The favourites
and recents are rendered without a query and never throw. -/
def renderSuggestions (compiles : String → Bool) (isInitial : Bool) (st : State) : State :=
  let st := { st with items := [] }
  if isInitial then
    if st.favorites.length == 0 && st.recentSearches.length == 0 then closeSuggestions st
    else
      { st with
        items := st.favorites.map (fun c => createSearchItem c c)
          ++ st.recentSearches.map (fun c => createSearchItem c c),
        listActive := true }
  else if highlightThrows compiles st then st
  else
    { st with items := st.currentSuggestions.map suggestionItem, listActive := true }

/-- The click listener of an item (script.js 643-647). -/
def clickItem (it : Item) (st : State) : State :=
  dispatchLookup (some it.cityKey) (closeSuggestions { st with inputValue := it.cityName })

/-- The keydown listener registered by `setupSearch` (script.js 476-495).
`items[selectedIndex].click()` on a missing element throws; the exception is
counted in `uncaught`. -/
def searchKeydown (key : Key) (st : State) : State :=
  if !st.listActive || st.items.length == 0 then st
  else
    match key with
    | .arrowDown =>
      { st with selectedIndex := min (st.selectedIndex + 1) ((st.items.length : Int) - 1) }
    | .arrowUp => { st with selectedIndex := max (st.selectedIndex - 1) 0 }
    | .enter =>
      if st.selectedIndex ≥ 0 then
        match st.items[st.selectedIndex.toNat]? with
        | some it => clickItem it st
        | none => { st with uncaught := st.uncaught + 1 }
      else st
    | .escape => closeSuggestions st
    | .other => st

/-- The keydown listener registered in the `DOMContentLoaded` handler
(script.js 30-33). -/
def enterKeydown (key : Key) (st : State) : State :=
  if key == .enter && st.selectedIndex < 0 then dispatchLookup none st else st

/-- A keydown event on the input: `setupSearch()` runs at script.js 22, before
the listener of script.js 31 is added, so its listener runs first. -/
def keydown (key : Key) (st : State) : State :=
  enterKeydown key (searchKeydown key st)

/-- `fetchSuggestions(query)` up to its `await` (script.js 505-518). On a
cache hit the call of `renderSuggestions` is outside the `try`: when it throws,
the promise of `fetchSuggestions` is rejected and nobody handles it (counted
in `uncaught`). The cache is read as a map of own keys; the names inherited
from `Object.prototype` are not modelled. -/
def fetchSuggestions (compiles : String → Bool) (query : String) (st : State) : State :=
  match getItem st.suggestionCache (toLowerCase query) with
  | some cached =>
    let st := { st with currentSuggestions := cached }
    if highlightThrows compiles st then
      { renderSuggestions compiles false st with uncaught := st.uncaught + 1 }
    else renderSuggestions compiles false st
  | none => { issue (.search query) st with inFlight := st.inFlight ++ [query] }

/-- The rest of `fetchSuggestions(query)` once the response has arrived
(script.js 519-528). Here `renderSuggestions` runs inside the `try`: when it
throws, the cache and `currentSuggestions` have been written already and the
`catch` only logs. -/
def fetchSuggestionsResolve (compiles : String → Bool) (query : String)
    (resp : Fetched SearchResponse) (st : State) : State :=
  match resp with
  | .threw _ => st
  | .json data =>
    if data.status == "ok" then
      match data.data with
      | none => st
      | some l =>
        let results := l.take 5
        renderSuggestions compiles false
          { st with suggestionCache := setItem st.suggestionCache (toLowerCase query) results,
                    currentSuggestions := results }
    else st

/-- The function wrapped by `debounce` in `setupSearch` (script.js 454-460). -/
def debouncedSearch (compiles : String → Bool) (query : String) (st : State) : State :=
  if jsLength query < 2 then renderSuggestions compiles true st
  else fetchSuggestions compiles query st

/-- Events of the search controller. `timerFire` is the debounce timer running
out, `fetchResolve` the arrival of a search response. -/
inductive Event where
  | input (value : String)
  | keydown (key : Key)
  | focus
  | outsideClick
  | mouseenter (idx : Nat)
  | click (idx : Nat)
  | timerFire
  | fetchResolve (query : String) (resp : Fetched SearchResponse)
deriving DecidableEq, Repr

/-- One event, run through the listeners of `setupSearch`, of the items and of
the `DOMContentLoaded` handler. Events that cannot occur in the state (a timer
that is not pending, a response that is not awaited, an item that is not
rendered) leave it unchanged. `compiles` is the oracle of `highlightThrows`. -/
def step (compiles : String → Bool) (st : State) : Event → State
  | .input value =>
    { st with inputValue := value, selectedIndex := -1,
              pendingTimer := some (jsTrim value) }
  | .keydown key => keydown key st
  | .focus => if jsTrim st.inputValue = "" then renderSuggestions compiles true st else st
  | .outsideClick => closeSuggestions st
  | .mouseenter idx =>
    if idx < st.items.length then { st with selectedIndex := (idx : Int) } else st
  | .click idx =>
    match st.items[idx]? with
    | some it => clickItem it st
    | none => st
  | .timerFire =>
    match st.pendingTimer with
    | some query => debouncedSearch compiles query { st with pendingTimer := none }
    | none => st
  | .fetchResolve query resp =>
    if query ∈ st.inFlight then
      fetchSuggestionsResolve compiles query resp
        { st with inFlight := st.inFlight.erase query }
    else st

/-- A sequence of events. -/
def run (compiles : String → Bool) (st : State) (evs : List Event) : State :=
  evs.foldl (step compiles) st

/-- The oracle of the examples: a text of letters, digits and blanks is a valid
pattern, and it is the only kind of text that the examples let compile; of the
other texts the examples use only "*par", whose pattern "(*par)" has nothing
to repeat. -/
def plainText (query : String) : Bool :=
  query.data.all (fun c => c.isAlphanum || c == ' ')

/-! ## Example states -/

/-- A dropdown showing two suggestions for the typed text "par", the first one
selected with the keyboard. -/
def enterState : State :=
  { initialState with
    inputValue := "par", listActive := true, selectedIndex := 0,
    items := [⟨"Paris", "@5722"⟩, ⟨"Parma", "@9310"⟩] }

/-- Three search results for "pa". -/
def resultsPa : List Suggestion :=
  [⟨5722, "Paris, France"⟩, ⟨9310, "Parma, Italy"⟩, ⟨4471, "Paramaribo, Suriname"⟩]

/-- The user types "pa" and sees three results, types "r"; while the request
for "par" is in flight and the old list is still shown the selection is moved
down three times; then the response for "par" arrives with a single result. -/
def rerenderTrace : List Event :=
  [.input "pa", .timerFire, .fetchResolve "pa" (.json ⟨"ok", some resultsPa⟩),
   .input "par", .timerFire,
   .keydown .arrowDown, .keydown .arrowDown, .keydown .arrowDown,
   .fetchResolve "par" (.json ⟨"ok", some [⟨5722, "Paris, France"⟩]⟩)]

/-- The user types "par", the request goes out, the user types on to "pari",
that request goes out too and its response (one result) is shown first. -/
def staleTrace : List Event :=
  [.input "par", .timerFire, .input "pari", .timerFire,
   .fetchResolve "pari" (.json ⟨"ok", some [⟨5722, "Paris, France"⟩]⟩)]

/-- A list of three option items with nothing selected. -/
def threeItems : State :=
  { initialState with
    listActive := true,
    items := [⟨"Pune", "Pune"⟩, ⟨"Delhi", "Delhi"⟩, ⟨"Mumbai", "Mumbai"⟩] }

/-- A reading for Pune, as the provider returns it. -/
def puneReading : Reading :=
  { aqi := some 87, city := some ⟨some "Pune, India", ["18.52", "73.85"]⟩,
    isNearest := false, searchedName := none }

/-- Storage holding a reading for "Pune" cached at time 1000. -/
def cachedPune : State :=
  { initialState with localStorage := [("aqi_pune", .entry 1000 puneReading)] }

/-- A provider that knows only Pune by name and has a station near
(12.97, 77.59); geocoding finds "Unknownville" there and nothing else. -/
def sampleFeed : Request → Fetched ApiResponse
  | .feedName "Pune" => .json ⟨"ok", some puneReading⟩
  | .feedStation "5722" =>
    .json ⟨"ok", some { aqi := some 41, city := some ⟨some "Paris", ["48.85", "2.35"]⟩,
                        isNearest := false, searchedName := none }⟩
  | .feedGeo "12.97" "77.59" =>
    .json ⟨"ok", some { aqi := some 112, city := some ⟨some "Hebbal, Bengaluru, India", []⟩,
                        isNearest := false, searchedName := none }⟩
  | _ => .json ⟨"error", none⟩

/-- Geocoding oracle of the sample provider. -/
def sampleGeocode : String → Fetched (Option (List Candidate))
  | "Unknownville" => .json (some [⟨"12.97", "77.59", "Unknownville, Karnataka"⟩])
  | "Farawayland" => .json (some [⟨"0.0", "0.0", "Farawayland"⟩])
  | _ => .json (some [])

/-- The sample provider at time `now`. -/
def sampleEnv (now : Int) : Env :=
  { now := now, nowAtSave := now + 250, feed := sampleFeed, geocode := sampleGeocode }

/-- A provider whose reading for "Nowhere" has a station block without a
name, whose answers for "Broken" and "Blank" lack `data` and `data.city`, and
that also answers the names "Recents" and "Favorites". -/
def oddFeed : Request → Fetched ApiResponse
  | .feedName "Nowhere" =>
    .json ⟨"ok", some { aqi := some 60, city := some ⟨none, []⟩,
                        isNearest := false, searchedName := none }⟩
  | .feedName "Broken" => .json ⟨"ok", none⟩
  | .feedName "Blank" =>
    .json ⟨"ok", some { aqi := some 12, city := none, isNearest := false, searchedName := none }⟩
  | .feedName "Recents" =>
    .json ⟨"ok", some { aqi := some 35, city := some ⟨some "Recents Park, Example", []⟩,
                        isNearest := false, searchedName := none }⟩
  | .feedName "Favorites" =>
    .json ⟨"ok", some { aqi := some 35, city := some ⟨some "Favorites Hill, Example", []⟩,
                        isNearest := false, searchedName := none }⟩
  | _ => .json ⟨"error", none⟩

/-- The provider `oddFeed` at time 5000, geocoding finds nothing. -/
def oddEnv : Env :=
  { now := 5000, nowAtSave := 5250, feed := oddFeed, geocode := fun _ => .json (some []) }

/-- A session with one favourite, persisted. -/
def oneFavorite : State :=
  { initialState with
    favorites := ["Pune"], localStorage := [("aqi_favorites", .names ["Pune"])] }

/-- Whether an event is the arrival of a search response for a query whose
suggestion-cache key is `k`. -/
def resolvesKey (k : String) : Event → Bool
  | .fetchResolve query _ => toLowerCase query == k
  | _ => false

/-! ## Favourites -/

/-- `toggleFavorite()` (script.js 665-681). Without a current reading nothing
happens; reading `.name` of a missing `city`, or `.split` of a missing name,
throws before anything is written (counted in `uncaught`). -/
def toggleFavorite (st : State) : State :=
  match st.currentCityData with
  | none => st
  | some d =>
    match d.city.bind (fun c => c.name) with
    | none => { st with uncaught := st.uncaught + 1 }
    | some n =>
      let city := firstPart n
      let favorites :=
        if st.favorites.contains city then st.favorites.filter (fun c => c != city)
        else st.favorites ++ [city]
      { st with favorites := favorites,
                localStorage := setItem st.localStorage "aqi_favorites" (.names favorites),
                favActive := favorites.contains city }

/-- The session after the fallback lookup of "Unknownville", which shows the
reading of the station "Hebbal, Bengaluru, India" under the searched name. -/
def afterFallback : State :=
  getAQI (sampleEnv 5000) (some "Unknownville") initialState

/-- The session after the lookup of "Pune", with "Delhi" and "Pune" as
favourites. -/
def puneShown : State :=
  updateUI (some puneReading) { initialState with favorites := ["Delhi", "Pune"] }

/-! ## Colour utility -/

/-- Value of one hexadecimal digit, as `parseInt(.., 16)` reads it. -/
def hexDigit (c : Char) : Option Nat :=
  if '0' ≤ c ∧ c ≤ '9' then some (c.toNat - 48)
  else if 'a' ≤ c ∧ c ≤ 'f' then some (c.toNat - 87)
  else if 'A' ≤ c ∧ c ≤ 'F' then some (c.toNat - 55)
  else none

/-- The digits `parseInt(color, 16)` consumes: the longest prefix of
hexadecimal digits, folded into `acc`; the flag tells whether any was read. -/
def parseHexFrom (acc : Nat) (seen : Bool) : List Char → Nat × Bool
  | [] => (acc, seen)
  | c :: cs =>
    match hexDigit c with
    | some d => parseHexFrom (16 * acc + d) true cs
    | none => (acc, seen)

/-- `parseInt(color, 16)` on a string of digits; `none` is `NaN`. -/
def parseInt16 (color : String) : Option Nat :=
  match parseHexFrom 0 false color.data with
  | (n, true) => some n
  | (_, false) => none

/-- Conversion of a number to a signed 32-bit integer, as `>>` and `&` apply
it to their operand; `NaN` converts to 0. -/
def toInt32 (num : Option Nat) : Int :=
  match num with
  | some n => (((n : Int) + 2147483648) % 4294967296) - 2147483648
  | none => 0

/-- One lowercase hexadecimal digit. -/
def hexChar (d : Nat) : Char :=
  if d < 10 then Char.ofNat (48 + d) else Char.ofNat (87 + d)

/-- Digits of `n.toString(16)`, least significant first, for `n` below
16 ^ fuel. -/
def hexDigitsRev : Nat → Nat → List Char
  | 0, _ => []
  | fuel + 1, n => if n < 16 then [hexChar n] else hexChar (n % 16) :: hexDigitsRev fuel (n / 16)

/-- `n.toString(16)` for `n` below 2 ^ 32. -/
def toString16 (n : Nat) : String := String.mk (hexDigitsRev 8 n).reverse

/-- `s.padStart(6, '0')`. -/
def padStart6 (s : String) : String :=
  String.mk (List.replicate (6 - s.data.length) '0' ++ s.data)

/-- `Math.min(Math.max(0, x), 255)`, as a natural number. -/
def clampChannel (x : Int) : Nat := (min (max 0 x) 255).toNat

/-- `adjustColor(hex, amount)` (script.js 927-942). `>> n` on the 32-bit
integer is the floor division by `2 ^ n`, `& 0xFF` the remainder modulo 256. -/
def adjustColor (hex : String) (amount : Int) : String :=
  let color := String.mk (hex.data.erase '#')
  let color :=
    if color.data.length = 3 then String.mk (color.data.flatMap (fun c => [c, c])) else color
  let num := toInt32 (parseInt16 color)
  let r := clampChannel (num / 65536 + amount)
  let g := clampChannel ((num / 256) % 256 + amount)
  let b := clampChannel (num % 256 + amount)
  "#" ++ padStart6 (toString16 (g ||| (r <<< 8) ||| (b <<< 16)))

/-! ## Debounce

`debounce(func, wait)` (script.js 392-402) against an explicit timer table:
time is in milliseconds, a timer runs at its due time, and a call made at
time `now` finds every timer due by then already run. -/

/-- A timer registered by `setTimeout(later, wait)`: its id, its due time and
the arguments that its `later` closure has captured. -/
structure Timer (α : Type) where
  id : Nat
  due : Nat
  args : α
deriving DecidableEq, Repr

/-- The closure variable `timeout` of one debounced function, the timer table
of the page, and the log of the invocations of `func` (time, arguments). -/
structure Debounce (α : Type) where
  wait : Nat
  timeout : Option Nat
  timers : List (Timer α)
  nextId : Nat
  invoked : List (Nat × α)
deriving DecidableEq, Repr

/-- `debounce(func, wait)`: `timeout` is undefined, nothing is scheduled. -/
def debounce {α : Type} (wait : Nat) : Debounce α :=
  { wait := wait, timeout := none, timers := [], nextId := 0, invoked := [] }

/-- `clearTimeout(timeout)` on the timer table. -/
def clearTimeout {α : Type} (timeout : Option Nat) (timers : List (Timer α)) :
    List (Timer α) :=
  match timeout with
  | none => timers
  | some i => timers.filter (fun t => t.id != i)

/-- The `later` closure of timer `t` (script.js 395-398), run at `t.due`. -/
def later {α : Type} (t : Timer α) (d : Debounce α) : Debounce α :=
  { d with timers := clearTimeout d.timeout d.timers,
           invoked := d.invoked ++ [(t.due, t.args)] }

/-- The timer with the earliest due time, the older one on a tie. -/
def earliest {α : Type} : List (Timer α) → Option (Timer α)
  | [] => none
  | t :: ts =>
    match earliest ts with
    | none => some t
    | some b => if b.due < t.due then some b else some t

/-- The event loop up to time `now`: as long as a timer is due it is taken
from the table and run. Every round removes a timer, so the number of timers
is enough fuel. -/
def runTimers {α : Type} : Nat → Nat → Debounce α → Debounce α
  | 0, _, d => d
  | fuel + 1, now, d =>
    match earliest (d.timers.filter (fun t => decide (t.due ≤ now))) with
    | none => d
    | some t =>
      runTimers fuel now (later t { d with timers := d.timers.filter (fun u => u.id != t.id) })

/-- The state at time `now`, all timers due by then run. -/
def advance {α : Type} (now : Nat) (d : Debounce α) : Debounce α :=
  runTimers d.timers.length now d

/-- `executedFunction(...args)` called at time `now` (script.js 394-401):
`clearTimeout(timeout)`, then `timeout = setTimeout(later, wait)`. -/
def executedFunction {α : Type} (now : Nat) (args : α) (d : Debounce α) : Debounce α :=
  let d := advance now d
  { d with timers := clearTimeout d.timeout d.timers ++ [⟨d.nextId, now + d.wait, args⟩],
           timeout := some d.nextId,
           nextId := d.nextId + 1 }

/-- A sequence of calls `(time, args)` of the debounced function. -/
def runCalls {α : Type} (d : Debounce α) (calls : List (Nat × α)) : Debounce α :=
  calls.foldl (fun d c => executedFunction c.1 c.2 d) d

/-- The keystrokes of the spec's example: what the input handler passes to
`debouncedSearch` at 0, 50, 100 and 150 ms. -/
def keystrokes : List (Nat × String) := [(0, "p"), (50, "pa"), (100, "par"), (150, "pari")]

/-- The user types "par", the request goes out; a space is typed after it, the
trimmed text is "par" again and, the first response not being back yet, a
second request for "par" goes out. -/
def duplicateTrace : List Event :=
  [.input "par", .timerFire, .input "par ", .timerFire]

/-! ## Theorems -/

/-- C1: after `saveToRecents c` on history `h` the history is the first five
elements of `c` followed by `h` without `c`; `c` is at the front and occurs
exactly once, the remaining entries are a sublist of `h` (relative order kept),
the length is at most 5, and the spec's example evaluates as stated. -/
theorem saveToRecents_spec (c : String) (h : List String) :
    saveToRecents c h = (c :: h.filter (fun x => x != c)).take 5
    ∧ (saveToRecents c h).head? = some c
    ∧ (saveToRecents c h).count c = 1
    ∧ (saveToRecents c h).tail = (h.filter (fun x => x != c)).take 4
    ∧ List.Sublist (saveToRecents c h).tail h
    ∧ (saveToRecents c h).length ≤ 5
    ∧ saveToRecents "Pune" ["Mumbai", "Pune", "Delhi"] = ["Pune", "Mumbai", "Delhi"] := by
  have hnot : c ∉ (h.filter (fun x => x != c)).take 4 := by
    intro hmem
    have h1 := List.mem_of_mem_take hmem
    simp at h1
  refine ⟨rfl, ?_, ?_, ?_, ?_, ?_, ?_⟩
  · simp [saveToRecents]
  · simp [saveToRecents, List.take_succ_cons, List.count_cons_self,
      List.count_eq_zero_of_not_mem hnot]
  · simp [saveToRecents]
  · simp only [saveToRecents, List.take_succ_cons, List.tail_cons]
    exact (List.take_sublist _ _).trans (List.filter_sublist _)
  · simp [saveToRecents, List.length_take]
  · decide

/-! ### Storage -/

theorem getItem_setItem_same {α : Type} (store : List (String × α)) (k : String) (v : α) :
    getItem (setItem store k v) k = some v := by
  simp [getItem, setItem]

theorem getItem_setItem_other {α : Type} (store : List (String × α)) (k k2 : String) (v : α)
    (h : k2 ≠ k) : getItem (setItem store k v) k2 = getItem store k2 := by
  have hk : (k == k2) = false := by simpa using fun e => h e.symm
  simp only [getItem, setItem, List.find?_cons, hk]
  congr 1
  induction store with
  | nil => rfl
  | cons kv rest ih =>
    obtain ⟨a, b⟩ := kv
    by_cases h1 : a = k
    · subst h1
      simp [List.filter_cons, List.find?_cons, hk, ih]
    · by_cases h3 : a = k2
      · subst h3
        simp [List.filter_cons, List.find?_cons, h1]
      · simp [List.filter_cons, List.find?_cons, h1, h3, ih]

/-! ### Enter on a selected item -/

/-- Enter with item `i` selected runs the click listener of the item and then,
because the click listener has reset `selectedIndex`, the plain-Enter lookup
of the second keydown listener. -/
theorem keydown_enter_selected (st : State) (i : Nat) (it : Item)
    (hact : st.listActive = true) (hsel : st.selectedIndex = (i : Int))
    (hit : st.items[i]? = some it) :
    keydown .enter st = dispatchLookup none (clickItem it st) := by
  have hlen : st.items.length ≠ 0 := by
    intro h0
    have hnil : st.items = [] := List.length_eq_zero.mp h0
    simp [hnil] at hit
  simp [keydown, searchKeydown, enterKeydown, hact, hlen, hsel, hit, clickItem,
    dispatchLookup, closeSuggestions]

/-- C2, evaluated on the code: with the dropdown open on "par" and item 0
("Paris", key "@5722") selected, a click on item 0 dispatches the one lookup
"@5722", but Enter dispatches two lookups, "@5722" and then the input text
"Paris"; the dropdown ends closed in both cases. -/
theorem enter_selected_dispatches_second_lookup :
    enterState.listActive = true ∧ enterState.selectedIndex = 0
    ∧ enterState.items[0]? = some ⟨"Paris", "@5722"⟩
    ∧ (step plainText enterState (.click 0)).lookups = ["@5722"]
    ∧ (step plainText enterState (.keydown .enter)).lookups = ["@5722", "Paris"]
    ∧ (step plainText enterState (.keydown .enter)).listActive = false
    ∧ step plainText enterState (.keydown .enter) ≠ step plainText enterState (.click 0) := by
  decide

/-! ### Suggestion responses -/

/-- C3, refuted as stated: the request for "par" is still in flight, the input
and the visible list are those of "pari"; the late response for "par" is
cached under "par" and also replaces the visible list. -/
theorem stale_response_replaces_visible_list :
    "par" ∈ (run plainText initialState staleTrace).inFlight
    ∧ (run plainText initialState staleTrace).inputValue = "pari"
    ∧ toLowerCase "par" ≠ toLowerCase "pari"
    ∧ (run plainText initialState staleTrace).currentSuggestions = [⟨5722, "Paris, France"⟩]
    ∧ getItem (step plainText (run plainText initialState staleTrace)
        (.fetchResolve "par" (.json ⟨"ok", some resultsPa⟩))).suggestionCache "par"
        = some resultsPa
    ∧ (step plainText (run plainText initialState staleTrace)
        (.fetchResolve "par" (.json ⟨"ok", some resultsPa⟩))).currentSuggestions = resultsPa
    ∧ (step plainText (run plainText initialState staleTrace)
        (.fetchResolve "par" (.json ⟨"ok", some resultsPa⟩))).items.length = 3 := by
  decide

/-- C3, amended: a successful response for an awaited query `q` is stored in
the suggestion cache under lowercase `q` and always becomes
`currentSuggestions` (its first five results), whatever the input text, the
pending timer and the previous list are; and when the trimmed input text is
empty or a valid pattern, or the result list is empty, the dropdown is
re-rendered from these results and left open. -/
theorem fetchResolve_ok_always_applied (compiles : String → Bool) (st : State) (q : String)
    (l : List Suggestion) (h : q ∈ st.inFlight) :
    getItem (step compiles st (.fetchResolve q (.json ⟨"ok", some l⟩))).suggestionCache
        (toLowerCase q) = some (l.take 5)
    ∧ (step compiles st (.fetchResolve q (.json ⟨"ok", some l⟩))).currentSuggestions = l.take 5
    ∧ ((l.take 5 = [] ∨ jsTrim st.inputValue = "" ∨ compiles (jsTrim st.inputValue) = true) →
        (step compiles st (.fetchResolve q (.json ⟨"ok", some l⟩))).items
          = (l.take 5).map suggestionItem
        ∧ (step compiles st (.fetchResolve q (.json ⟨"ok", some l⟩))).listActive = true) := by
  refine ⟨?_, ?_, ?_⟩
  · simp only [step, h, if_true, fetchSuggestionsResolve, beq_self_eq_true, renderSuggestions,
      Bool.false_eq_true, if_false]
    split <;> simp [getItem_setItem_same]
  · simp only [step, h, if_true, fetchSuggestionsResolve, beq_self_eq_true, renderSuggestions,
      Bool.false_eq_true, if_false]
    split <;> rfl
  · intro hok
    have hno : highlightThrows compiles
        { st with inFlight := st.inFlight.erase q,
                  suggestionCache := setItem st.suggestionCache (toLowerCase q) (l.take 5),
                  currentSuggestions := l.take 5,
                  items := [] } = false := by
      rcases hok with h1 | h1 | h1 <;> simp [highlightThrows, h1]
    simp [step, h, fetchSuggestionsResolve, renderSuggestions, hno]

theorem fetchResolve_ok_always_applied_witness :
    getItem (step plainText (run plainText initialState staleTrace)
        (.fetchResolve "par" (.json ⟨"ok", some resultsPa⟩))).suggestionCache (toLowerCase "par")
      = some (resultsPa.take 5)
    ∧ (step plainText (run plainText initialState staleTrace)
        (.fetchResolve "par" (.json ⟨"ok", some resultsPa⟩))).items
      = (resultsPa.take 5).map suggestionItem
    ∧ (step plainText (run plainText initialState staleTrace)
        (.fetchResolve "par" (.json ⟨"ok", some resultsPa⟩))).listActive = true :=
  ⟨(fetchResolve_ok_always_applied plainText (run plainText initialState staleTrace) "par"
      resultsPa (by decide)).1,
   ((fetchResolve_ok_always_applied plainText (run plainText initialState staleTrace) "par"
      resultsPa (by decide)).2.2 (Or.inr (Or.inr (by decide)))).1,
   ((fetchResolve_ok_always_applied plainText (run plainText initialState staleTrace) "par"
      resultsPa (by decide)).2.2 (Or.inr (Or.inr (by decide)))).2⟩

/-! ### Selection index -/

/-- C4, evaluated on the code: from the initial state, after the list of three
results has been replaced by a list of one result while index 2 was selected,
`selectedIndex` is 2 with a single option item rendered; Enter then finds no
item at that index, throws, and dispatches no lookup. -/
theorem selectedIndex_invalid_after_rerender :
    initialState.selectedIndex = -1 ∧ initialState.items = []
    ∧ (run plainText initialState rerenderTrace).selectedIndex = 2
    ∧ (run plainText initialState rerenderTrace).items.length = 1
    ∧ (run plainText initialState rerenderTrace).listActive = true
    ∧ (run plainText initialState (rerenderTrace ++ [.keydown .enter])).uncaught = 1
    ∧ (run plainText initialState (rerenderTrace ++ [.keydown .enter])).lookups = [] := by
  decide

theorem step_arrowDown (compiles : String → Bool) (st : State) (hact : st.listActive = true)
    (hlen : 1 ≤ st.items.length) :
    step compiles st (.keydown .arrowDown)
      = { st with selectedIndex := min (st.selectedIndex + 1) ((st.items.length : Int) - 1) } := by
  have h0 : st.items.length ≠ 0 := by omega
  simp [step, keydown, searchKeydown, enterKeydown, hact, h0]

theorem step_arrowUp (compiles : String → Bool) (st : State) (hact : st.listActive = true)
    (hlen : 1 ≤ st.items.length) :
    step compiles st (.keydown .arrowUp) = { st with selectedIndex := max (st.selectedIndex - 1) 0 } := by
  have h0 : st.items.length ≠ 0 := by omega
  simp [step, keydown, searchKeydown, enterKeydown, hact, h0]

theorem run_arrowDown (compiles : String → Bool) (k : Nat) : ∀ st : State, st.listActive = true → 1 ≤ st.items.length →
    -1 ≤ st.selectedIndex → st.selectedIndex ≤ (st.items.length : Int) - 1 →
    (run compiles st (List.replicate k (.keydown .arrowDown))).selectedIndex
      = min (st.selectedIndex + k) ((st.items.length : Int) - 1) := by
  induction k with
  | zero =>
    intro st _ _ _ hhi
    simp [run, min_eq_left hhi]
  | succ k ih =>
    intro st hact hlen hlo hhi
    have hst := step_arrowDown compiles st hact hlen
    have hrun : run compiles st (List.replicate (k + 1) (.keydown .arrowDown))
        = run compiles (step compiles st (.keydown .arrowDown)) (List.replicate k (.keydown .arrowDown)) := by
      simp [run, List.replicate_succ]
    have ha : (step compiles st (.keydown .arrowDown)).listActive = true := by rw [hst]; exact hact
    have hi : (step compiles st (.keydown .arrowDown)).items = st.items := by rw [hst]
    have hs : (step compiles st (.keydown .arrowDown)).selectedIndex
        = min (st.selectedIndex + 1) ((st.items.length : Int) - 1) := by rw [hst]
    rw [hrun, ih _ ha (by rw [hi]; exact hlen) (by rw [hs]; omega) (by rw [hs, hi]; omega),
      hs, hi]
    push_cast
    omega

theorem run_arrowUp (compiles : String → Bool) (k : Nat) : ∀ st : State, st.listActive = true → 1 ≤ st.items.length →
    0 ≤ st.selectedIndex →
    (run compiles st (List.replicate k (.keydown .arrowUp))).selectedIndex
      = max (st.selectedIndex - k) 0 := by
  induction k with
  | zero =>
    intro st _ _ hlo
    simp [run, max_eq_left hlo]
  | succ k ih =>
    intro st hact hlen hlo
    have hst := step_arrowUp compiles st hact hlen
    have hrun : run compiles st (List.replicate (k + 1) (.keydown .arrowUp))
        = run compiles (step compiles st (.keydown .arrowUp)) (List.replicate k (.keydown .arrowUp)) := by
      simp [run, List.replicate_succ]
    have ha : (step compiles st (.keydown .arrowUp)).listActive = true := by rw [hst]; exact hact
    have hi : (step compiles st (.keydown .arrowUp)).items = st.items := by rw [hst]
    have hs : (step compiles st (.keydown .arrowUp)).selectedIndex = max (st.selectedIndex - 1) 0 := by
      rw [hst]
    rw [hrun, ih _ ha (by rw [hi]; exact hlen) (by rw [hs]; omega), hs]
    push_cast
    omega

/-- C5: with the list visible and `n ≥ 1` option items, from any index `i` in
`[-1, n-1]`, `k` presses of ArrowDown leave `min (i + k) (n - 1)` and `k ≥ 1`
presses of ArrowUp leave `max (i - k) 0`; after at least one arrow key the
index lies in `[0, n-1]`. -/
theorem arrow_keys_clamp (compiles : String → Bool) (st : State) (n k : Nat) (i : Int)
    (hact : st.listActive = true) (hlen : st.items.length = n) (hn : 1 ≤ n)
    (hi : st.selectedIndex = i) (hlo : -1 ≤ i) (hhi : i ≤ (n : Int) - 1) :
    (run compiles st (List.replicate k (.keydown .arrowDown))).selectedIndex = min (i + k) ((n : Int) - 1)
    ∧ (1 ≤ k →
        (run compiles st (List.replicate k (.keydown .arrowUp))).selectedIndex = max (i - k) 0)
    ∧ (1 ≤ k →
        0 ≤ (run compiles st (List.replicate k (.keydown .arrowDown))).selectedIndex
        ∧ (run compiles st (List.replicate k (.keydown .arrowDown))).selectedIndex ≤ (n : Int) - 1
        ∧ 0 ≤ (run compiles st (List.replicate k (.keydown .arrowUp))).selectedIndex
        ∧ (run compiles st (List.replicate k (.keydown .arrowUp))).selectedIndex ≤ (n : Int) - 1) := by
  subst hlen hi
  have hdown := run_arrowDown compiles k st hact hn hlo hhi
  have hup : 1 ≤ k →
      (run compiles st (List.replicate k (.keydown .arrowUp))).selectedIndex
        = max (st.selectedIndex - k) 0 := by
    intro hk
    obtain ⟨j, rfl⟩ : ∃ j, k = j + 1 := ⟨k - 1, by omega⟩
    have hst := step_arrowUp compiles st hact hn
    have hrun : run compiles st (List.replicate (j + 1) (.keydown .arrowUp))
        = run compiles (step compiles st (.keydown .arrowUp)) (List.replicate j (.keydown .arrowUp)) := by
      simp [run, List.replicate_succ]
    have ha : (step compiles st (.keydown .arrowUp)).listActive = true := by rw [hst]; exact hact
    have hit : (step compiles st (.keydown .arrowUp)).items = st.items := by rw [hst]
    have hs : (step compiles st (.keydown .arrowUp)).selectedIndex = max (st.selectedIndex - 1) 0 := by
      rw [hst]
    rw [hrun, run_arrowUp compiles j _ ha (by rw [hit]; exact hn) (by rw [hs]; omega), hs]
    push_cast
    omega
  refine ⟨hdown, hup, fun hk => ?_⟩
  rw [hdown, hup hk]
  omega

theorem arrow_keys_clamp_witness :
    (run plainText threeItems (List.replicate 10 (.keydown .arrowDown))).selectedIndex
      = min ((-1 : Int) + ((10 : Nat) : Int)) (((3 : Nat) : Int) - 1)
    ∧ (run plainText threeItems (List.replicate 10 (.keydown .arrowDown))).selectedIndex = 2 :=
  ⟨(arrow_keys_clamp plainText threeItems 3 10 (-1) rfl rfl (by decide) rfl (by decide) (by decide)).1,
    by decide⟩

/-! ### Lookup pipeline -/

@[simp] theorem updateUI_requests (d : Option Reading) (st : State) :
    (updateUI d st).requests = st.requests := by
  unfold updateUI; split <;> [rfl; (split <;> rfl)]

@[simp] theorem updateUI_localStorage (d : Option Reading) (st : State) :
    (updateUI d st).localStorage = st.localStorage := by
  unfold updateUI; split <;> [rfl; (split <;> rfl)]

@[simp] theorem updateUI_lastCity (d : Option Reading) (st : State) :
    (updateUI d st).lastCity = st.lastCity := by
  unfold updateUI; split <;> [rfl; (split <;> rfl)]

@[simp] theorem updateUI_recentSearches (d : Option Reading) (st : State) :
    (updateUI d st).recentSearches = st.recentSearches := by
  unfold updateUI; split <;> [rfl; (split <;> rfl)]

@[simp] theorem updateUI_alerts (d : Option Reading) (st : State) :
    (updateUI d st).alerts = st.alerts := by
  unfold updateUI; split <;> [rfl; (split <;> rfl)]

@[simp] theorem updateUI_nearbyCalls (d : Option Reading) (st : State) :
    (updateUI d st).nearbyCalls = st.nearbyCalls := by
  unfold updateUI; split <;> [rfl; (split <;> rfl)]

@[simp] theorem updateUI_uiCalls (d : Option Reading) (st : State) :
    (updateUI d st).uiCalls = st.uiCalls ++ [d] := by
  unfold updateUI; split <;> [rfl; (split <;> rfl)]

/-- A cache hit is `updateUI` of the stored reading and nothing else. -/
theorem getAQI_hit (env : Env) (cityOverride : Option String) (st : State) (data : Reading)
    (hhit : freshCached env.now
      (getItem st.localStorage (cacheKey (resolveCity cityOverride st.inputValue))) = some data) :
    getAQI env cityOverride st = updateUI (some data) st := by
  simp [getAQI, hhit]

/-- C6: when storage holds, under the key of the query `Q` that the call
resolves, an entry whose age is below `CACHE_DURATION`, `getAQI` is exactly
`updateUI` of the stored reading: no request is issued, no alert raised, and
the storage (cache entry included), `lastCity` and the recents are unchanged. -/
theorem getAQI_fresh_entry_served (env : Env) (cityOverride : Option String) (st : State)
    (Q : String) (ts : Int) (data : Reading)
    (hQ : resolveCity cityOverride st.inputValue = Q)
    (hentry : getItem st.localStorage ("aqi_" ++ toLowerCase Q) = some (.entry ts data))
    (hfresh : env.now - ts < CACHE_DURATION) :
    getAQI env cityOverride st = updateUI (some data) st
    ∧ (getAQI env cityOverride st).requests = st.requests
    ∧ (getAQI env cityOverride st).uiCalls = st.uiCalls ++ [some data]
    ∧ (getAQI env cityOverride st).localStorage = st.localStorage
    ∧ getItem (getAQI env cityOverride st).localStorage ("aqi_" ++ toLowerCase Q)
        = some (.entry ts data)
    ∧ (getAQI env cityOverride st).lastCity = st.lastCity
    ∧ (getAQI env cityOverride st).recentSearches = st.recentSearches
    ∧ (getAQI env cityOverride st).alerts = st.alerts := by
  have hf : env.now - ts < 1800000 := by simpa [CACHE_DURATION] using hfresh
  have hget : getAQI env cityOverride st = updateUI (some data) st :=
    getAQI_hit env cityOverride st data
      (by simp [hQ, cacheKey, hentry, freshCached, CACHE_DURATION, hf])
  simp [hget, hentry]

theorem getAQI_fresh_entry_served_witness :
    getAQI (sampleEnv 1500000) (some "Pune") cachedPune = updateUI (some puneReading) cachedPune
    ∧ (getAQI (sampleEnv 1500000) (some "Pune") cachedPune).requests = [] :=
  ⟨(getAQI_fresh_entry_served (sampleEnv 1500000) (some "Pune") cachedPune "Pune" 1000
      puneReading (by decide) (by decide) (by decide)).1,
   (getAQI_fresh_entry_served (sampleEnv 1500000) (some "Pune") cachedPune "Pune" 1000
      puneReading (by decide) (by decide) (by decide)).2.1⟩

/-- The geocoding fallback only appends to the request log. -/
theorem geocodeFallback_state (env : Env) (city : String) (data : ApiResponse) (st : State) :
    ∃ more, (geocodeFallback env city data st).1
      = { st with requests := st.requests ++ more } := by
  unfold geocodeFallback
  by_cases hc : (data.status != "ok" && !startsWith city "@" && !startsWith city "geo:") = true
  · simp only [hc, if_true]
    cases hg : env.geocode city with
    | threw e => exact ⟨[.geocode city], rfl⟩
    | json geoData =>
      cases geoData with
      | none => exact ⟨[.geocode city], rfl⟩
      | some l =>
        cases l with
        | nil => exact ⟨[.geocode city], rfl⟩
        | cons cand tail =>
          refine ⟨[.geocode city, .feedGeo cand.lat cand.lon], ?_⟩
          cases hf : env.feed (.feedGeo cand.lat cand.lon) with
          | threw e => simp [hf, issue]
          | json data2 =>
            by_cases hok : data2.status = "ok"
            · cases hd : data2.data <;> simp [hf, hok, hd, issue]
            · simp [hf, hok, issue]
  · simp only [hc]
    exact ⟨[], by simp⟩

@[simp] theorem finishLookup_requests (env : Env) (city : String) (data : ApiResponse)
    (st : State) : (finishLookup env city data st).requests = st.requests := by
  unfold finishLookup
  split
  · rfl
  · split
    · rfl
    · split
      · rfl
      · split <;> simp [saveToRecentsSt]

/-- On a cache miss the direct provider request is the first request issued. -/
theorem getAQI_miss_requests (env : Env) (cityOverride : Option String) (st : State)
    (hmiss : freshCached env.now
      (getItem st.localStorage (cacheKey (resolveCity cityOverride st.inputValue))) = none) :
    ∃ more, (getAQI env cityOverride st).requests
      = st.requests ++ searchUrl (resolveCity cityOverride st.inputValue) :: more := by
  simp only [getAQI, hmiss]
  split
  · exact ⟨[], rfl⟩
  · rename_i data _
    obtain ⟨more, hmore⟩ := geocodeFallback_state env
      (resolveCity cityOverride st.inputValue) data
      (issue (searchUrl (resolveCity cityOverride st.inputValue)) st)
    split
    · rename_i st2 e heq
      have h1 : st2 = _ := (congrArg Prod.fst heq).symm.trans hmore
      exact ⟨more, by simp [catchError, h1, issue]⟩
    · rename_i st2 d2 heq
      have h1 : st2 = _ := (congrArg Prod.fst heq).symm.trans hmore
      exact ⟨more, by simp [h1, issue]⟩

/-- The store after a direct provider request that succeeds on a cache miss. -/
theorem getAQI_miss_direct_ok (env : Env) (cityOverride : Option String) (st : State)
    (r : Reading) (c : City)
    (hmiss : freshCached env.now
      (getItem st.localStorage (cacheKey (resolveCity cityOverride st.inputValue))) = none)
    (hfeed : env.feed (searchUrl (resolveCity cityOverride st.inputValue))
      = .json ⟨"ok", some r⟩)
    (hcity : r.city = some c) :
    (getAQI env cityOverride st).localStorage
      = setItem (setItem st.localStorage (cacheKey (resolveCity cityOverride st.inputValue))
          (.entry env.nowAtSave r)) "aqi_recents"
          (.names (saveToRecents (safeCityName c (resolveCity cityOverride st.inputValue))
            st.recentSearches))
    ∧ (getAQI env cityOverride st).uiCalls = st.uiCalls ++ [some r]
    ∧ (getAQI env cityOverride st).requests
      = st.requests ++ [searchUrl (resolveCity cityOverride st.inputValue)]
    ∧ (getAQI env cityOverride st).lastCity = some (resolveCity cityOverride st.inputValue)
    ∧ (getAQI env cityOverride st).recentSearches
      = saveToRecents (safeCityName c (resolveCity cityOverride st.inputValue))
          st.recentSearches
    ∧ (getAQI env cityOverride st).alerts = st.alerts := by
  obtain ⟨aqi, rcity, isN, sn⟩ := r
  simp only at hcity
  subst hcity
  simp only [getAQI, hmiss, hfeed, geocodeFallback, finishLookup]
  simp only [bne_self_eq_false, Bool.false_and, Bool.false_eq_true, if_false]
  refine ⟨?_, ?_, ?_, ?_, ?_, ?_⟩ <;> split <;> simp [saveToRecentsSt, issue]

/-- C7, refuted as stated: an entry cached at time 1000 and read at time
1801000 has age exactly 1,800,000 ms, which does not exceed the TTL, yet the
code requests the reading again and overwrites the entry. -/
theorem entry_aged_exactly_ttl_is_refetched :
    getItem cachedPune.localStorage (cacheKey "Pune") = some (.entry 1000 puneReading)
    ∧ (sampleEnv 1801000).now - 1000 = 1800000
    ∧ ¬ (1800000 < (sampleEnv 1801000).now - 1000)
    ∧ (getAQI (sampleEnv 1801000) (some "Pune") cachedPune).requests = [.feedName "Pune"]
    ∧ getItem (getAQI (sampleEnv 1801000) (some "Pune") cachedPune).localStorage "aqi_pune"
        = some (.entry 1801250 puneReading) := by
  decide

/-- C7, amended: an entry is served from the cache exactly when its age
`now - timestamp` is below 1,800,000 ms; from age 1,800,000 ms on the lookup
behaves as a miss: the direct provider request is issued, and when it
succeeds the entry is overwritten with the new reading and time. -/
theorem cache_entry_expires_at_ttl (env : Env) (cityOverride : Option String) (st : State)
    (Q : String) (ts : Int) (data : Reading)
    (hQ : resolveCity cityOverride st.inputValue = Q)
    (hentry : getItem st.localStorage ("aqi_" ++ toLowerCase Q) = some (.entry ts data)) :
    (env.now - ts < 1800000 → getAQI env cityOverride st = updateUI (some data) st)
    ∧ (1800000 ≤ env.now - ts →
        (∃ more, (getAQI env cityOverride st).requests = st.requests ++ searchUrl Q :: more)
        ∧ ∀ r c, env.feed (searchUrl Q) = .json ⟨"ok", some r⟩ → r.city = some c →
            (getAQI env cityOverride st).localStorage
              = setItem (setItem st.localStorage ("aqi_" ++ toLowerCase Q)
                  (.entry env.nowAtSave r)) "aqi_recents"
                  (.names (saveToRecents (safeCityName c Q) st.recentSearches)))
    ∧ ((getAQI env cityOverride st).requests = st.requests ↔ env.now - ts < 1800000) := by
  have hserved : env.now - ts < 1800000 →
      getAQI env cityOverride st = updateUI (some data) st := fun hf =>
    getAQI_hit env cityOverride st data
      (by simp [hQ, cacheKey, hentry, freshCached, CACHE_DURATION, hf])
  have hmiss : 1800000 ≤ env.now - ts → freshCached env.now
      (getItem st.localStorage (cacheKey (resolveCity cityOverride st.inputValue))) = none := by
    intro hexp
    have : ¬ env.now - ts < 1800000 := by omega
    simp [hQ, cacheKey, hentry, freshCached, CACHE_DURATION, this]
  refine ⟨hserved, fun hexp => ⟨?_, ?_⟩, ⟨fun hreq => ?_, fun hf => ?_⟩⟩
  · simpa [hQ] using getAQI_miss_requests env cityOverride st (hmiss hexp)
  · intro r c hfeed hcity
    have h := (getAQI_miss_direct_ok env cityOverride st r c (hmiss hexp)
      (by simpa [hQ] using hfeed) hcity).1
    simpa [hQ, cacheKey] using h
  · by_contra hnot
    obtain ⟨more, hmore⟩ := getAQI_miss_requests env cityOverride st (hmiss (by omega))
    rw [hmore] at hreq
    simp at hreq
  · rw [hserved hf]; simp

theorem cache_entry_expires_at_ttl_witness :
    ((sampleEnv 1801000).now - 1000 < 1800000 →
        getAQI (sampleEnv 1801000) (some "Pune") cachedPune
          = updateUI (some puneReading) cachedPune)
    ∧ (1800000 ≤ (sampleEnv 1801000).now - 1000 →
        (∃ more, (getAQI (sampleEnv 1801000) (some "Pune") cachedPune).requests
          = cachedPune.requests ++ searchUrl "Pune" :: more)
        ∧ ∀ r c, (sampleEnv 1801000).feed (searchUrl "Pune") = .json ⟨"ok", some r⟩ →
            r.city = some c →
            (getAQI (sampleEnv 1801000) (some "Pune") cachedPune).localStorage
              = setItem (setItem cachedPune.localStorage ("aqi_" ++ toLowerCase "Pune")
                  (.entry (sampleEnv 1801000).nowAtSave r)) "aqi_recents"
                  (.names (saveToRecents (safeCityName c "Pune") cachedPune.recentSearches)))
    ∧ ((getAQI (sampleEnv 1801000) (some "Pune") cachedPune).requests = cachedPune.requests
        ↔ (sampleEnv 1801000).now - 1000 < 1800000) :=
  cache_entry_expires_at_ttl (sampleEnv 1801000) (some "Pune") cachedPune "Pune" 1000
    puneReading (by decide) (by decide)

/-- The fallback path of `getAQI`: a plain-name query, a miss, a direct
response that is not "ok", and a first geocoding candidate. -/
theorem getAQI_fallback_path (env : Env) (cityOverride : Option String) (st : State)
    (Q : String) (data : ApiResponse) (cand : Candidate) (rest : List Candidate)
    (resp : ApiResponse)
    (hQ : resolveCity cityOverride st.inputValue = Q)
    (hat : startsWith Q "@" = false) (hgeo : startsWith Q "geo:" = false)
    (hmiss : freshCached env.now (getItem st.localStorage ("aqi_" ++ toLowerCase Q)) = none)
    (hfeed : env.feed (.feedName Q) = .json data) (hbad : data.status ≠ "ok")
    (hcands : env.geocode Q = .json (some (cand :: rest)))
    (hfeed2 : env.feed (.feedGeo cand.lat cand.lon) = .json resp) :
    getAQI env cityOverride st
      = if resp.status = "ok" then
          match resp.data with
          | some r =>
            finishLookup env Q
              { resp with data := some { r with isNearest := true, searchedName := some Q } }
              { st with requests := st.requests
                  ++ [.feedName Q, .geocode Q, .feedGeo cand.lat cand.lon] }
          | none =>
            catchError false
              { st with requests := st.requests
                  ++ [.feedName Q, .geocode Q, .feedGeo cand.lat cand.lon] }
        else
          finishLookup env Q resp
            { st with requests := st.requests
                ++ [.feedName Q, .geocode Q, .feedGeo cand.lat cand.lon] } := by
  have hmiss2 : freshCached env.now (getItem st.localStorage (cacheKey Q)) = none := hmiss
  simp only [getAQI, hQ, hmiss2, searchUrl, hat, Bool.false_eq_true, if_false, hfeed,
    geocodeFallback, hgeo, hcands, hfeed2]
  by_cases hok : resp.status = "ok"
  · cases hd : resp.data <;> simp [hbad, hok, issue]
  · simp [hbad, hok, issue]

/-- C8: for a plain-name query `Q` without a fresh cache entry, when the
name lookup is not "ok", geocoding gives a first candidate and the geo lookup
at that candidate is "ok": the requests are the name lookup, the geocoding
request and the geo lookup at the first candidate's coordinates; a reading `r`
with a station block is rendered and cached as `r` with `isNearest = true` and
`searchedName = Q`; and whatever reading the call renders carries that mark. -/
theorem geocoding_fallback_marks_nearest (env : Env) (cityOverride : Option String)
    (st : State) (Q : String) (data : ApiResponse) (cand : Candidate)
    (rest : List Candidate) (resp : ApiResponse)
    (hQ : resolveCity cityOverride st.inputValue = Q)
    (hat : startsWith Q "@" = false) (hgeo : startsWith Q "geo:" = false)
    (hmiss : freshCached env.now (getItem st.localStorage ("aqi_" ++ toLowerCase Q)) = none)
    (hfeed : env.feed (.feedName Q) = .json data) (hbad : data.status ≠ "ok")
    (hcands : env.geocode Q = .json (some (cand :: rest)))
    (hfeed2 : env.feed (.feedGeo cand.lat cand.lon) = .json resp)
    (hok : resp.status = "ok") :
    (getAQI env cityOverride st).requests
      = st.requests ++ [.feedName Q, .geocode Q, .feedGeo cand.lat cand.lon]
    ∧ (∀ r c, resp.data = some r → r.city = some c →
        (getAQI env cityOverride st).uiCalls
          = st.uiCalls ++ [some { r with isNearest := true, searchedName := some Q }]
        ∧ (getAQI env cityOverride st).localStorage
          = setItem (setItem st.localStorage ("aqi_" ++ toLowerCase Q)
              (.entry env.nowAtSave { r with isNearest := true, searchedName := some Q }))
              "aqi_recents" (.names (saveToRecents (safeCityName c Q) st.recentSearches)))
    ∧ (∀ rr, (getAQI env cityOverride st).uiCalls = st.uiCalls ++ [some rr] →
        rr.isNearest = true ∧ rr.searchedName = some Q) := by
  have hpath := getAQI_fallback_path env cityOverride st Q data cand rest resp hQ hat hgeo
    hmiss hfeed hbad hcands hfeed2
  simp only [hok, if_true] at hpath
  have hui : ∀ r c, resp.data = some r → r.city = some c →
      (getAQI env cityOverride st).uiCalls
          = st.uiCalls ++ [some { r with isNearest := true, searchedName := some Q }]
        ∧ (getAQI env cityOverride st).localStorage
          = setItem (setItem st.localStorage ("aqi_" ++ toLowerCase Q)
              (.entry env.nowAtSave { r with isNearest := true, searchedName := some Q }))
              "aqi_recents" (.names (saveToRecents (safeCityName c Q) st.recentSearches)) := by
    intro r c hr hc
    rw [hpath]
    simp only [hr, finishLookup, hok, hc, cacheKey]
    constructor <;> (simp only [bne_self_eq_false, Bool.false_eq_true, if_false]) <;>
      split <;> simp [saveToRecentsSt]
  refine ⟨?_, hui, ?_⟩
  · rw [hpath]
    cases hd : resp.data <;> simp [catchError]
  · intro rr hrr
    cases hd : resp.data with
    | none =>
      rw [hpath] at hrr
      simp [hd, catchError] at hrr
    | some r =>
      cases hc : r.city with
      | none =>
        rw [hpath] at hrr
        simp [hd, finishLookup, hok, hc, catchError] at hrr
      | some c =>
        rw [(hui r c hd hc).1] at hrr
        have := List.append_cancel_left hrr
        simp only [List.cons.injEq, Option.some.injEq, and_true] at this
        subst this
        exact ⟨rfl, rfl⟩

theorem geocoding_fallback_marks_nearest_witness :
    (getAQI (sampleEnv 5000) (some "Unknownville") initialState).requests
      = initialState.requests
        ++ [.feedName "Unknownville", .geocode "Unknownville", .feedGeo "12.97" "77.59"]
    ∧ (getAQI (sampleEnv 5000) (some "Unknownville") initialState).uiCalls
      = [some { aqi := some 112, city := some ⟨some "Hebbal, Bengaluru, India", []⟩,
                isNearest := true, searchedName := some "Unknownville" }] :=
  ⟨(geocoding_fallback_marks_nearest (sampleEnv 5000) (some "Unknownville") initialState
      "Unknownville" ⟨"error", none⟩ ⟨"12.97", "77.59", "Unknownville, Karnataka"⟩ []
      ⟨"ok", some { aqi := some 112, city := some ⟨some "Hebbal, Bengaluru, India", []⟩,
                    isNearest := false, searchedName := none }⟩
      (by decide) (by decide) (by decide) (by decide) (by decide) (by decide) (by decide)
      (by decide) (by decide)).1,
   by decide⟩

/-- For a station or coordinate reference the fallback is the identity. -/
theorem geocodeFallback_reference (env : Env) (Q : String) (data : ApiResponse) (st : State)
    (href : startsWith Q "@" = true ∨ startsWith Q "geo:" = true) :
    geocodeFallback env Q data st = (st, .ok data) := by
  unfold geocodeFallback
  rcases href with h | h <;> simp [h]

/-- A direct request that comes back "ok" skips the fallback. -/
theorem getAQI_miss_direct (env : Env) (cityOverride : Option String) (st : State)
    (Q : String) (data : ApiResponse)
    (hQ : resolveCity cityOverride st.inputValue = Q)
    (hmiss : freshCached env.now (getItem st.localStorage (cacheKey Q)) = none)
    (hfeed : env.feed (searchUrl Q) = .json data) (hok : data.status = "ok") :
    getAQI env cityOverride st = finishLookup env Q data (issue (searchUrl Q) st) := by
  simp [getAQI, hQ, hmiss, hfeed, geocodeFallback, hok]

/-- The map requests of a response that is accepted. -/
theorem finishLookup_nearbyCalls_ok (env : Env) (Q : String) (r : Reading) (c : City)
    (st : State) (hcity : r.city = some c) :
    (finishLookup env Q ⟨"ok", some r⟩ st).nearbyCalls
      = st.nearbyCalls ++ (match c.geo with
          | lat :: lon :: _ => [(lat, lon)]
          | _ => []) := by
  obtain ⟨aqi, rcity, isN, sn⟩ := r
  simp only at hcity
  subst hcity
  simp only [finishLookup, bne_self_eq_false, Bool.false_eq_true, if_false]
  split <;> simp [saveToRecentsSt]

/-- Validation and persistence issue at most one map request. -/
theorem finishLookup_nearbyCalls (env : Env) (Q : String) (data : ApiResponse) (st : State) :
    (finishLookup env Q data st).nearbyCalls = st.nearbyCalls
    ∨ ∃ lat lon, (finishLookup env Q data st).nearbyCalls = st.nearbyCalls ++ [(lat, lon)] := by
  unfold finishLookup
  split
  · exact Or.inl rfl
  · split
    · exact Or.inl rfl
    · split
      · exact Or.inl rfl
      · split
        · rename_i lat lon _ _
          exact Or.inr ⟨lat, lon, by simp [saveToRecentsSt]⟩
        · exact Or.inl (by simp [saveToRecentsSt])

/-- One call of `getAQI` issues at most one map request. -/
theorem getAQI_nearbyCalls (env : Env) (cityOverride : Option String) (st : State) :
    (getAQI env cityOverride st).nearbyCalls = st.nearbyCalls
    ∨ ∃ lat lon, (getAQI env cityOverride st).nearbyCalls = st.nearbyCalls ++ [(lat, lon)] := by
  unfold getAQI
  simp only
  split
  · exact Or.inl (by simp)
  · split
    · exact Or.inl rfl
    · rename_i data _
      obtain ⟨more, hmore⟩ := geocodeFallback_state env
        (resolveCity cityOverride st.inputValue) data
        (issue (searchUrl (resolveCity cityOverride st.inputValue)) st)
      split
      · rename_i st2 e heq
        have h1 : st2 = _ := (congrArg Prod.fst heq).symm.trans hmore
        exact Or.inl (by simp [catchError, h1, issue])
      · rename_i st2 d2 heq
        have h1 : st2 = _ := (congrArg Prod.fst heq).symm.trans hmore
        have h2 := finishLookup_nearbyCalls env (resolveCity cityOverride st.inputValue) d2 st2
        have h3 : st2.nearbyCalls = st.nearbyCalls := by rw [h1]; rfl
        rw [h3] at h2
        exact h2

/-- C9, refuted as stated: the lookup of the station reference "@5722"
succeeds with a reading that has coordinates; besides the direct provider
request `getAQI` then calls `fetchNearbyStations`, which issues a request to
`/api/map/bounds`: two requests, not only the direct one. -/
theorem station_lookup_also_requests_map :
    startsWith "@5722" "@" = true
    ∧ (getAQI (sampleEnv 5000) (some "@5722") initialState).requests = [.feedStation "5722"]
    ∧ (getAQI (sampleEnv 5000) (some "@5722") initialState).nearbyCalls = [("48.85", "2.35")]
    ∧ (getAQI (sampleEnv 5000) (some "@5722") initialState).requests.length
        + (getAQI (sampleEnv 5000) (some "@5722") initialState).nearbyCalls.length = 2 := by
  decide

/-- C9, amended: for a query `Q` starting with "@" or "geo:", `getAQI` itself
issues at most the direct provider request and no geocoding request or geo
lookup; on a miss, a response that is not "ok" gives exactly the
location-not-found alert and nothing else, and a reading that gets rendered is
the `data` of the direct response, unmodified, so its `isNearest` flag is
never set by the lookup. Besides, at most one map request is issued through
`fetchNearbyStations`: none on a cache hit or a failure, and after an accepted
reading one exactly when its station block has two coordinates. -/
theorem direct_reference_skips_geocoding (env : Env) (cityOverride : Option String)
    (st : State) (Q : String)
    (hQ : resolveCity cityOverride st.inputValue = Q)
    (href : startsWith Q "@" = true ∨ startsWith Q "geo:" = true) :
    ((getAQI env cityOverride st).requests = st.requests
      ∨ (getAQI env cityOverride st).requests = st.requests ++ [searchUrl Q])
    ∧ (∀ q, Request.geocode q ∈ (getAQI env cityOverride st).requests →
        Request.geocode q ∈ st.requests)
    ∧ (∀ lat lon, Request.feedGeo lat lon ∈ (getAQI env cityOverride st).requests →
        Request.feedGeo lat lon ∈ st.requests)
    ∧ (freshCached env.now (getItem st.localStorage ("aqi_" ++ toLowerCase Q)) = none →
        (getAQI env cityOverride st).requests = st.requests ++ [searchUrl Q]
        ∧ (∀ data, env.feed (searchUrl Q) = .json data → data.status ≠ "ok" →
            getAQI env cityOverride st
              = { st with requests := st.requests ++ [searchUrl Q],
                          alerts := st.alerts ++ [Alert.notFound Q] })
        ∧ (∀ rr, (getAQI env cityOverride st).uiCalls = st.uiCalls ++ [some rr] →
            ∃ data, env.feed (searchUrl Q) = .json data ∧ data.status = "ok"
              ∧ data.data = some rr))
    ∧ ((getAQI env cityOverride st).nearbyCalls = st.nearbyCalls
      ∨ ∃ lat lon, (getAQI env cityOverride st).nearbyCalls = st.nearbyCalls ++ [(lat, lon)])
    ∧ (∀ d, freshCached env.now (getItem st.localStorage ("aqi_" ++ toLowerCase Q)) = some d →
        (getAQI env cityOverride st).requests = st.requests
        ∧ (getAQI env cityOverride st).nearbyCalls = st.nearbyCalls)
    ∧ (freshCached env.now (getItem st.localStorage ("aqi_" ++ toLowerCase Q)) = none →
        (∀ e, env.feed (searchUrl Q) = .threw e →
          (getAQI env cityOverride st).nearbyCalls = st.nearbyCalls)
        ∧ (∀ r c, env.feed (searchUrl Q) = .json ⟨"ok", some r⟩ → r.city = some c →
          (getAQI env cityOverride st).nearbyCalls
            = st.nearbyCalls ++ (match c.geo with
                | lat :: lon :: _ => [(lat, lon)]
                | _ => []))) := by
  have hreq : freshCached env.now (getItem st.localStorage (cacheKey Q)) = none →
      (getAQI env cityOverride st).requests = st.requests ++ [searchUrl Q] := by
    intro hmiss
    simp only [getAQI, hQ, hmiss]
    cases hf : env.feed (searchUrl Q) with
    | threw e => simp [catchError, issue]
    | json data => simp [geocodeFallback_reference env Q data _ href, issue]
  have hcases : (getAQI env cityOverride st).requests = st.requests
      ∨ (getAQI env cityOverride st).requests = st.requests ++ [searchUrl Q] := by
    cases hc : freshCached env.now (getItem st.localStorage (cacheKey Q)) with
    | none => exact Or.inr (hreq hc)
    | some d => left; simp [getAQI, hQ, hc]
  have hurl : searchUrl Q = .feedStation (substring1 Q) ∨ searchUrl Q = .feedName Q := by
    unfold searchUrl
    split <;> simp
  refine ⟨hcases, ?_, ?_, fun hmiss => ⟨hreq hmiss, ?_, ?_⟩,
    getAQI_nearbyCalls env cityOverride st, ?_, fun hmiss => ⟨?_, ?_⟩⟩
  rotate_left 4
  · intro d hd
    have hhit : freshCached env.now (getItem st.localStorage (cacheKey Q)) = some d := hd
    simp [getAQI, hQ, hhit]
  · intro e hf
    have hmiss2 : freshCached env.now (getItem st.localStorage (cacheKey Q)) = none := hmiss
    simp [getAQI, hQ, hmiss2, hf, catchError, issue]
  · intro r c hf hcity
    have hmiss2 : freshCached env.now (getItem st.localStorage (cacheKey Q)) = none := hmiss
    rw [getAQI_miss_direct env cityOverride st Q _ hQ hmiss2 hf rfl,
      finishLookup_nearbyCalls_ok env Q r c _ hcity]
    rfl
  · intro q hq
    rcases hcases with h | h <;> rw [h] at hq
    · exact hq
    · rcases hurl with hu | hu <;> simpa [hu] using hq
  · intro lat lon hq
    rcases hcases with h | h <;> rw [h] at hq
    · exact hq
    · rcases hurl with hu | hu <;> simpa [hu] using hq
  · intro data hf hbad
    have hmiss2 : freshCached env.now (getItem st.localStorage (cacheKey Q)) = none := hmiss
    simp [getAQI, hQ, hmiss2, hf, geocodeFallback_reference env Q data _ href, finishLookup,
      hbad, issue]
  · intro rr hrr
    have hmiss2 : freshCached env.now (getItem st.localStorage (cacheKey Q)) = none := hmiss
    simp only [getAQI, hQ, hmiss2] at hrr
    cases hf : env.feed (searchUrl Q) with
    | threw e => simp [hf, catchError, issue] at hrr
    | json data =>
      simp only [hf, geocodeFallback_reference env Q data _ href, finishLookup] at hrr
      by_cases hok : data.status = "ok"
      · refine ⟨data, rfl, hok, ?_⟩
        cases hd : data.data with
        | none => simp [hok, hd, catchError, issue] at hrr
        | some r =>
          cases hc : r.city with
          | none => simp [hok, hd, hc, catchError, issue] at hrr
          | some c =>
            simp only [hok, hd, hc, bne_self_eq_false, Bool.false_eq_true, if_false] at hrr
            have h2 : st.uiCalls ++ [some r] = st.uiCalls ++ [some rr] := by
              rw [← hrr]
              split <;> simp [saveToRecentsSt, issue]
            simpa using List.append_cancel_left h2
      · simp [hok, issue] at hrr

theorem direct_reference_skips_geocoding_witness :
    ((getAQI (sampleEnv 5000) (some "@5722") initialState).requests = initialState.requests
      ∨ (getAQI (sampleEnv 5000) (some "@5722") initialState).requests
        = initialState.requests ++ [searchUrl "@5722"])
    ∧ (getAQI (sampleEnv 5000) (some "@5722") initialState).requests = [.feedStation "5722"]
    ∧ (getAQI (sampleEnv 5000) (some "geo:10;20") initialState).requests
        = [.feedName "geo:10;20"]
    ∧ (getAQI (sampleEnv 5000) (some "geo:10;20") initialState).alerts
        = [.notFound "geo:10;20"]
    ∧ (getAQI (sampleEnv 5000) (some "@5722") initialState).nearbyCalls
        = initialState.nearbyCalls ++ [("48.85", "2.35")] :=
  ⟨(direct_reference_skips_geocoding (sampleEnv 5000) (some "@5722") initialState "@5722"
      (by decide) (Or.inl (by decide))).1,
   by decide, by decide, by decide,
   ((direct_reference_skips_geocoding (sampleEnv 5000) (some "@5722") initialState "@5722"
      (by decide) (Or.inl (by decide))).2.2.2.2.2.2 (by decide)).2
      { aqi := some 41, city := some ⟨some "Paris", ["48.85", "2.35"]⟩,
        isNearest := false, searchedName := none }
      ⟨some "Paris", ["48.85", "2.35"]⟩ (by decide) (by decide)⟩

/-- C10: for a plain-name query `Q` without a fresh cache entry, when the name
lookup is not "ok" and geocoding finds nothing, or the geo lookup at its first
candidate is not "ok" either, `getAQI` raises the location-not-found alert and
changes nothing but the request and alert logs: storage with the reading
cache, `lastCity` and the recents are as before, and nothing is rendered. -/
theorem not_found_leaves_state (env : Env) (cityOverride : Option String) (st : State)
    (Q : String) (data : ApiResponse)
    (hQ : resolveCity cityOverride st.inputValue = Q)
    (hat : startsWith Q "@" = false) (hgeo : startsWith Q "geo:" = false)
    (hmiss : freshCached env.now (getItem st.localStorage ("aqi_" ++ toLowerCase Q)) = none)
    (hfeed : env.feed (.feedName Q) = .json data) (hbad : data.status ≠ "ok")
    (hfail : env.geocode Q = .json (some [])
      ∨ ∃ cand rest resp, env.geocode Q = .json (some (cand :: rest))
          ∧ env.feed (.feedGeo cand.lat cand.lon) = .json resp ∧ resp.status ≠ "ok") :
    (∃ reqs, getAQI env cityOverride st
      = { st with requests := st.requests ++ reqs,
                  alerts := st.alerts ++ [Alert.notFound Q] })
    ∧ (getAQI env cityOverride st).alerts = st.alerts ++ [Alert.notFound Q]
    ∧ (getAQI env cityOverride st).localStorage = st.localStorage
    ∧ (getAQI env cityOverride st).lastCity = st.lastCity
    ∧ (getAQI env cityOverride st).recentSearches = st.recentSearches
    ∧ (getAQI env cityOverride st).uiCalls = st.uiCalls := by
  have hex : ∃ reqs, getAQI env cityOverride st
      = { st with requests := st.requests ++ reqs,
                  alerts := st.alerts ++ [Alert.notFound Q] } := by
    rcases hfail with hnone | ⟨cand, rest, resp, hcands, hfeed2, hbad2⟩
    · refine ⟨[.feedName Q, .geocode Q], ?_⟩
      have hmiss2 : freshCached env.now (getItem st.localStorage (cacheKey Q)) = none := hmiss
      simp [getAQI, hQ, hmiss2, searchUrl, hat, hfeed, geocodeFallback, hgeo, hnone, hbad,
        finishLookup, issue]
    · refine ⟨[.feedName Q, .geocode Q, .feedGeo cand.lat cand.lon], ?_⟩
      rw [getAQI_fallback_path env cityOverride st Q data cand rest resp hQ hat hgeo hmiss
        hfeed hbad hcands hfeed2]
      simp [hbad2, finishLookup]
  obtain ⟨reqs, hreqs⟩ := hex
  exact ⟨⟨reqs, hreqs⟩, by rw [hreqs], by rw [hreqs], by rw [hreqs], by rw [hreqs],
    by rw [hreqs]⟩

theorem not_found_leaves_state_witness :
    (getAQI (sampleEnv 1801000) (some "Atlantis") cachedPune).alerts
      = cachedPune.alerts ++ [Alert.notFound "Atlantis"]
    ∧ (getAQI (sampleEnv 1801000) (some "Atlantis") cachedPune).localStorage
      = cachedPune.localStorage
    ∧ (getAQI (sampleEnv 1801000) (some "Farawayland") cachedPune).requests
      = [.feedName "Farawayland", .geocode "Farawayland", .feedGeo "0.0" "0.0"]
    ∧ (getAQI (sampleEnv 1801000) (some "Farawayland") cachedPune).localStorage
      = cachedPune.localStorage :=
  ⟨(not_found_leaves_state (sampleEnv 1801000) (some "Atlantis") cachedPune "Atlantis"
      ⟨"error", none⟩ (by decide) (by decide) (by decide) (by decide) (by decide) (by decide)
      (Or.inl (by decide))).2.1,
   (not_found_leaves_state (sampleEnv 1801000) (some "Atlantis") cachedPune "Atlantis"
      ⟨"error", none⟩ (by decide) (by decide) (by decide) (by decide) (by decide) (by decide)
      (Or.inl (by decide))).2.2.1,
   by decide,
   (not_found_leaves_state (sampleEnv 1801000) (some "Farawayland") cachedPune "Farawayland"
      ⟨"error", none⟩ (by decide) (by decide) (by decide) (by decide) (by decide) (by decide)
      (Or.inr ⟨⟨"0.0", "0.0", "Farawayland"⟩, [], ⟨"error", none⟩, by decide, by decide,
        by decide⟩)).2.2.1⟩

/-! ### Validation and persistence -/

/-- C11, refuted as stated: a response with status "ok" whose station block
has no name is accepted: the reading is cached, `lastCity` and the recents
are written (with the query text), the reading is rendered under the label
"Unknown", no alert. -/
theorem nameless_reading_is_accepted :
    oddFeed (searchUrl "Nowhere")
      = .json ⟨"ok", some { aqi := some 60, city := some ⟨none, []⟩,
                            isNearest := false, searchedName := none }⟩
    ∧ getItem (getAQI oddEnv (some "Nowhere") initialState).localStorage "aqi_nowhere"
      = some (.entry 5250 { aqi := some 60, city := some ⟨none, []⟩,
                            isNearest := false, searchedName := none })
    ∧ (getAQI oddEnv (some "Nowhere") initialState).lastCity = some "Nowhere"
    ∧ (getAQI oddEnv (some "Nowhere") initialState).recentSearches = ["Nowhere"]
    ∧ (getAQI oddEnv (some "Nowhere") initialState).uiCalls
      = [some { aqi := some 60, city := some ⟨none, []⟩,
                isNearest := false, searchedName := none }]
    ∧ (getAQI oddEnv (some "Nowhere") initialState).alerts = []
    ∧ (getAQI oddEnv (some "Nowhere") initialState).cityNameText = "Unknown" := by
  decide

/-- C11, amended: on a cache miss, a response with status "ok" that has no
`data` or no `data.city` (from the direct request, or from the geo lookup of
the fallback) ends in the error alert and changes nothing but the request and
alert logs: nothing is cached, `lastCity` and the recents are as before,
nothing is rendered. A reading whose `data.city` is present without a name is
accepted: it is written to storage under the key of the query, `lastCity` is
set, the query text goes to the recents, and the reading is rendered by
`updateUI`, under the label "Unknown" when it has an AQI value and is not
marked `isNearest`. -/
theorem malformed_response_rejected (env : Env) (cityOverride : Option String) (st : State)
    (Q : String)
    (hQ : resolveCity cityOverride st.inputValue = Q)
    (hmiss : freshCached env.now (getItem st.localStorage ("aqi_" ++ toLowerCase Q)) = none) :
    (∀ d, env.feed (searchUrl Q) = .json ⟨"ok", d⟩ →
        (d = none ∨ ∃ r, d = some r ∧ r.city = none) →
        getAQI env cityOverride st
          = { st with requests := st.requests ++ [searchUrl Q],
                      alerts := st.alerts ++ [Alert.appError] })
    ∧ (∀ data cand rest resp, startsWith Q "@" = false → startsWith Q "geo:" = false →
        env.feed (.feedName Q) = .json data → data.status ≠ "ok" →
        env.geocode Q = .json (some (cand :: rest)) →
        env.feed (.feedGeo cand.lat cand.lon) = .json resp → resp.status = "ok" →
        (resp.data = none ∨ ∃ r, resp.data = some r ∧ r.city = none) →
        getAQI env cityOverride st
          = { st with requests := st.requests
                        ++ [.feedName Q, .geocode Q, .feedGeo cand.lat cand.lon],
                      alerts := st.alerts ++ [Alert.appError] })
    ∧ (∀ r c, env.feed (searchUrl Q) = .json ⟨"ok", some r⟩ → r.city = some c →
        c.name = none →
        (getAQI env cityOverride st).uiCalls = st.uiCalls ++ [some r]
        ∧ (getAQI env cityOverride st).lastCity = some Q
        ∧ (getAQI env cityOverride st).recentSearches = saveToRecents Q st.recentSearches
        ∧ (getAQI env cityOverride st).alerts = st.alerts
        ∧ (getAQI env cityOverride st).localStorage
          = setItem (setItem st.localStorage ("aqi_" ++ toLowerCase Q)
              (.entry env.nowAtSave r)) "aqi_recents"
              (.names (saveToRecents Q st.recentSearches))
        ∧ ("aqi_" ++ toLowerCase Q ≠ "aqi_recents" →
            getItem (getAQI env cityOverride st).localStorage ("aqi_" ++ toLowerCase Q)
              = some (.entry env.nowAtSave r))
        ∧ (r.isNearest = false → ∀ aqi, r.aqi = some aqi →
            (getAQI env cityOverride st).cityNameText = "Unknown"
            ∧ (getAQI env cityOverride st).currentCityData = some r)) := by
  have hmiss2 : freshCached env.now (getItem st.localStorage (cacheKey Q)) = none := hmiss
  refine ⟨?_, ?_, ?_⟩
  · intro d hfeed hmal
    rcases hmal with hd | ⟨r, hd, hc⟩
    · subst hd
      simp [getAQI, hQ, hmiss2, hfeed, geocodeFallback, finishLookup, catchError, issue]
    · subst hd
      simp [getAQI, hQ, hmiss2, hfeed, geocodeFallback, finishLookup, hc, catchError, issue]
  · intro data cand rest resp hat hgeo hfeed hbad hcands hfeed2 hok hmal
    rw [getAQI_fallback_path env cityOverride st Q data cand rest resp hQ hat hgeo hmiss
      hfeed hbad hcands hfeed2]
    rcases hmal with hd | ⟨r, hd, hc⟩
    · simp [hok, hd, catchError]
    · simp [hok, hd, finishLookup, hc, catchError]
  · intro r c hfeed hcity hname
    have h := getAQI_miss_direct_ok env cityOverride st r c (by simpa [hQ] using hmiss2)
      (by simpa [hQ] using hfeed) hcity
    simp only [hQ] at h
    have hsafe : safeCityName c Q = Q := by simp [safeCityName, hname]
    rw [hsafe] at h
    have hstore : (getAQI env cityOverride st).localStorage
        = setItem (setItem st.localStorage ("aqi_" ++ toLowerCase Q)
            (.entry env.nowAtSave r)) "aqi_recents"
            (.names (saveToRecents Q st.recentSearches)) := h.1
    refine ⟨h.2.1, h.2.2.2.1, h.2.2.2.2.1, h.2.2.2.2.2, hstore, fun hkey => ?_,
      fun hnear aqi haqi => ?_⟩
    · rw [hstore, getItem_setItem_other _ _ _ _ hkey, getItem_setItem_same]
    · rw [getAQI_miss_direct env cityOverride st Q _ hQ hmiss2 hfeed rfl]
      obtain ⟨raqi, rcity, isN, sn⟩ := r
      simp only at hcity hnear haqi
      subst hcity hnear haqi
      obtain ⟨cname, cgeo⟩ := c
      simp only at hname
      subst hname
      simp only [finishLookup, bne_self_eq_false, Bool.false_eq_true, if_false]
      constructor <;> split <;> simp [saveToRecentsSt, updateUI, displayName]

theorem malformed_response_rejected_witness :
    getAQI oddEnv (some "Broken") cachedPune
      = { cachedPune with
          requests := cachedPune.requests ++ [searchUrl "Broken"],
          alerts := cachedPune.alerts ++ [Alert.appError] }
    ∧ getAQI oddEnv (some "Blank") cachedPune
      = { cachedPune with
          requests := cachedPune.requests ++ [searchUrl "Blank"],
          alerts := cachedPune.alerts ++ [Alert.appError] }
    ∧ (getAQI oddEnv (some "Nowhere") cachedPune).recentSearches
      = saveToRecents "Nowhere" cachedPune.recentSearches
    ∧ (getAQI oddEnv (some "Nowhere") cachedPune).cityNameText = "Unknown" :=
  ⟨(malformed_response_rejected oddEnv (some "Broken") cachedPune "Broken"
      (by decide) (by decide)).1 none (by decide) (Or.inl rfl),
   (malformed_response_rejected oddEnv (some "Blank") cachedPune "Blank"
      (by decide) (by decide)).1
      (some { aqi := some 12, city := none, isNearest := false, searchedName := none })
      (by decide) (Or.inr ⟨_, rfl, rfl⟩),
   ((malformed_response_rejected oddEnv (some "Nowhere") cachedPune "Nowhere"
      (by decide) (by decide)).2.2
      { aqi := some 60, city := some ⟨none, []⟩, isNearest := false, searchedName := none }
      ⟨none, []⟩ (by decide) (by decide) (by decide)).2.2.1,
   (((malformed_response_rejected oddEnv (some "Nowhere") cachedPune "Nowhere"
      (by decide) (by decide)).2.2
      { aqi := some 60, city := some ⟨none, []⟩, isNearest := false, searchedName := none }
      ⟨none, []⟩ (by decide) (by decide) (by decide)).2.2.2.2.2.2 rfl 60 rfl).1⟩

@[simp] theorem updateUI_favorites (d : Option Reading) (st : State) :
    (updateUI d st).favorites = st.favorites := by
  unfold updateUI; split <;> [rfl; (split <;> rfl)]

@[simp] theorem finishLookup_favorites (env : Env) (city : String) (data : ApiResponse)
    (st : State) : (finishLookup env city data st).favorites = st.favorites := by
  unfold finishLookup
  split
  · rfl
  · split
    · rfl
    · split
      · rfl
      · split <;> simp [saveToRecentsSt]

/-- No path of `getAQI` writes the `favorites` variable. -/
theorem getAQI_favorites (env : Env) (cityOverride : Option String) (st : State) :
    (getAQI env cityOverride st).favorites = st.favorites := by
  unfold getAQI
  simp only
  split
  · simp
  · split
    · rfl
    · rename_i data _
      obtain ⟨more, hmore⟩ := geocodeFallback_state env
        (resolveCity cityOverride st.inputValue) data
        (issue (searchUrl (resolveCity cityOverride st.inputValue)) st)
      split
      · rename_i st2 e heq
        have h1 : st2 = _ := (congrArg Prod.fst heq).symm.trans hmore
        simp [catchError, h1, issue]
      · rename_i st2 d2 heq
        have h1 : st2 = _ := (congrArg Prod.fst heq).symm.trans hmore
        simp [h1, issue]

/-- What a successful direct lookup persists when the cache key of the query
is not the key of the recents list: the entry is held under the key of the
query, every key other than these two is untouched, `lastCity` is the query,
the recents get the part of the station name before its first comma, and the
`favorites` variable is unchanged. -/
theorem getAQI_success_persists (env : Env) (cityOverride : Option String) (st : State)
    (Q N : String) (r : Reading) (c : City)
    (hQ : resolveCity cityOverride st.inputValue = Q)
    (hmiss : freshCached env.now (getItem st.localStorage (cacheKey Q)) = none)
    (hfeed : env.feed (searchUrl Q) = .json ⟨"ok", some r⟩)
    (hcity : r.city = some c) (hname : c.name = some N) (hN : N ≠ "")
    (hkey : cacheKey Q ≠ "aqi_recents") :
    getItem (getAQI env cityOverride st).localStorage (cacheKey Q)
      = some (.entry env.nowAtSave r)
    ∧ (∀ k, k ≠ cacheKey Q → k ≠ "aqi_recents" →
        getItem (getAQI env cityOverride st).localStorage k = getItem st.localStorage k)
    ∧ (getAQI env cityOverride st).lastCity = some Q
    ∧ (getAQI env cityOverride st).recentSearches = saveToRecents (firstPart N) st.recentSearches
    ∧ (getAQI env cityOverride st).favorites = st.favorites := by
  have h := getAQI_miss_direct_ok env cityOverride st r c (by simpa [hQ] using hmiss)
    (by simpa [hQ] using hfeed) hcity
  simp only [hQ] at h
  have hsafe : safeCityName c Q = firstPart N := by simp [safeCityName, hname, hN]
  rw [hsafe] at h
  refine ⟨?_, ?_, h.2.2.2.1, h.2.2.2.2.1, getAQI_favorites env cityOverride st⟩
  · rw [h.1, getItem_setItem_other _ _ _ _ hkey, getItem_setItem_same]
  · intro k hk1 hk2
    rw [h.1, getItem_setItem_other _ _ _ _ hk2, getItem_setItem_other _ _ _ _ hk1]

/-- C12, evaluated on the code: the lookup of "Recents" succeeds, yet the key
of that query, "aqi_recents", afterwards holds the recents array and not the
reading; the lookup of "Favorites" succeeds and the key "aqi_favorites", which
held the persisted favourites, afterwards holds the reading. -/
theorem cache_key_collides_with_lists :
    cacheKey "Recents" = "aqi_recents"
    ∧ (getAQI oddEnv (some "Recents") initialState).lastCity = some "Recents"
    ∧ (getAQI oddEnv (some "Recents") initialState).recentSearches = ["Recents Park"]
    ∧ getItem (getAQI oddEnv (some "Recents") initialState).localStorage (cacheKey "Recents")
      = some (.names ["Recents Park"])
    ∧ cacheKey "Favorites" = "aqi_favorites"
    ∧ getItem oneFavorite.localStorage "aqi_favorites" = some (.names ["Pune"])
    ∧ (getAQI oddEnv (some "Favorites") oneFavorite).lastCity = some "Favorites"
    ∧ getItem (getAQI oddEnv (some "Favorites") oneFavorite).localStorage "aqi_favorites"
      = some (.entry 5250
          { aqi := some 35, city := some ⟨some "Favorites Hill, Example", []⟩,
            isNearest := false, searchedName := none }) := by
  decide

/-! ### Suggestion cache -/

@[simp] theorem renderSuggestions_suggestionCache (compiles : String → Bool) (b : Bool)
    (st : State) : (renderSuggestions compiles b st).suggestionCache = st.suggestionCache := by
  unfold renderSuggestions
  simp only
  split
  · split <;> rfl
  · split <;> rfl

@[simp] theorem renderSuggestions_requests (compiles : String → Bool) (b : Bool)
    (st : State) : (renderSuggestions compiles b st).requests = st.requests := by
  unfold renderSuggestions
  simp only
  split
  · split <;> rfl
  · split <;> rfl

@[simp] theorem renderSuggestions_currentSuggestions (compiles : String → Bool) (b : Bool)
    (st : State) :
    (renderSuggestions compiles b st).currentSuggestions = st.currentSuggestions := by
  unfold renderSuggestions
  simp only
  split
  · split <;> rfl
  · split <;> rfl

@[simp] theorem keydown_suggestionCache (key : Key) (st : State) :
    (keydown key st).suggestionCache = st.suggestionCache := by
  unfold keydown enterKeydown searchKeydown
  cases key <;> simp only <;> repeat' split
  all_goals simp [clickItem, dispatchLookup, closeSuggestions]

@[simp] theorem fetchSuggestions_suggestionCache (compiles : String → Bool) (q : String)
    (st : State) : (fetchSuggestions compiles q st).suggestionCache = st.suggestionCache := by
  unfold fetchSuggestions
  split
  · simp only
    split <;> simp
  · simp [issue]

/-- Only the arrival of a response for the same key changes a cache entry. -/
theorem step_suggestionCache (compiles : String → Bool) (k : String) (st : State)
    (ev : Event) (hev : resolvesKey k ev = false) :
    getItem (step compiles st ev).suggestionCache k = getItem st.suggestionCache k := by
  cases ev with
  | input value => rfl
  | keydown key => simp [step]
  | focus => simp only [step]; split <;> simp
  | outsideClick => rfl
  | mouseenter idx => simp only [step]; split <;> rfl
  | click idx => simp only [step]; split <;> simp [clickItem, dispatchLookup, closeSuggestions]
  | timerFire =>
    simp only [step]
    split
    · simp only [debouncedSearch]
      split <;> simp
    · rfl
  | fetchResolve query resp =>
    have hk : k ≠ toLowerCase query := by
      intro h
      simp [resolvesKey, h] at hev
    simp only [step]
    split
    · simp only [fetchSuggestionsResolve]
      split
      · rfl
      · split
        · split
          · rfl
          · simp [getItem_setItem_other _ _ _ _ hk]
        · rfl
    · rfl

theorem run_suggestionCache (compiles : String → Bool) (k : String) (evs : List Event) :
    ∀ st : State, (∀ ev ∈ evs, resolvesKey k ev = false) →
    getItem (run compiles st evs).suggestionCache k = getItem st.suggestionCache k := by
  induction evs with
  | nil => intro st _; rfl
  | cons ev rest ih =>
    intro st h
    have hrun : run compiles st (ev :: rest) = run compiles (step compiles st ev) rest := rfl
    rw [hrun, ih (step compiles st ev) (fun e he => h e (List.mem_cons_of_mem _ he)),
      step_suggestionCache compiles k st ev (h ev (List.mem_cons_self _ _))]

/-- The session-cache path of `fetchSuggestions`: the cached list becomes
`currentSuggestions` and no request is issued, whether or not rendering
throws. -/
theorem fetchSuggestions_hit (compiles : String → Bool) (q : String) (st : State)
    (cached : List Suggestion)
    (hhit : getItem st.suggestionCache (toLowerCase q) = some cached) :
    (fetchSuggestions compiles q st).currentSuggestions = cached
    ∧ (fetchSuggestions compiles q st).requests = st.requests
    ∧ ((cached = [] ∨ jsTrim st.inputValue = "" ∨ compiles (jsTrim st.inputValue) = true) →
        (fetchSuggestions compiles q st).items = cached.map suggestionItem
        ∧ (fetchSuggestions compiles q st).listActive = true
        ∧ (fetchSuggestions compiles q st).uncaught = st.uncaught) := by
  refine ⟨?_, ?_, ?_⟩
  · simp only [fetchSuggestions, hhit]
    split <;> simp
  · simp only [fetchSuggestions, hhit]
    split <;> simp
  · intro hok
    have hno : highlightThrows compiles { st with currentSuggestions := cached } = false := by
      rcases hok with h1 | h1 | h1 <;> simp [highlightThrows, h1]
    have hno2 : highlightThrows compiles
        { st with currentSuggestions := cached, items := [] } = false := hno
    simp [fetchSuggestions, hhit, hno, renderSuggestions, hno2]

/-- C13, refuted as stated: two requests for "par" are in flight; the first
response (three results) is shown and cached, the second (one result)
overwrites the entry, and a later `fetchSuggestions "par"` shows the second
list, not the first, still without a request. -/
theorem later_response_overwrites_cached_list :
    (run plainText initialState duplicateTrace).inFlight = ["par", "par"]
    ∧ (step plainText (run plainText initialState duplicateTrace)
        (.fetchResolve "par" (.json ⟨"ok", some resultsPa⟩))).currentSuggestions
      = resultsPa.take 5
    ∧ getItem (step plainText (run plainText initialState duplicateTrace)
        (.fetchResolve "par" (.json ⟨"ok", some resultsPa⟩))).suggestionCache "par"
      = some (resultsPa.take 5)
    ∧ (fetchSuggestions plainText "par" (run plainText initialState (duplicateTrace
        ++ [.fetchResolve "par" (.json ⟨"ok", some resultsPa⟩),
            .fetchResolve "par" (.json ⟨"ok", some [⟨5722, "Paris, France"⟩]⟩)]))
        ).currentSuggestions = [⟨5722, "Paris, France"⟩]
    ∧ (fetchSuggestions plainText "par" (run plainText initialState (duplicateTrace
        ++ [.fetchResolve "par" (.json ⟨"ok", some resultsPa⟩),
            .fetchResolve "par" (.json ⟨"ok", some [⟨5722, "Paris, France"⟩]⟩)]))
        ).currentSuggestions ≠ resultsPa.take 5
    ∧ (fetchSuggestions plainText "par" (run plainText initialState (duplicateTrace
        ++ [.fetchResolve "par" (.json ⟨"ok", some resultsPa⟩),
            .fetchResolve "par" (.json ⟨"ok", some [⟨5722, "Paris, France"⟩]⟩)]))
        ).requests = [.search "par", .search "par"] := by
  decide

/-- C13, amended: when the response for an awaited query `q` arrives with
status "ok" and result list `L`, `currentSuggestions` and the cache entry at
lowercase `q` both become the first `min 5 |L|` elements of `L`; and after any
further events that bring no other response for that key, `fetchSuggestions
q2` for a query with the same lowercase text makes that list
`currentSuggestions` again and issues no request; when the trimmed input text
at that moment is empty or a valid pattern, or the list is empty, the list is
rendered and the dropdown is open. -/
theorem suggestion_response_shown_and_cached (compiles : String → Bool) (st : State)
    (q q2 : String) (L : List Suggestion) (evs : List Event)
    (hq : q ∈ st.inFlight) (hq2 : toLowerCase q2 = toLowerCase q)
    (hevs : ∀ ev ∈ evs, resolvesKey (toLowerCase q) ev = false) :
    (step compiles st (.fetchResolve q (.json ⟨"ok", some L⟩))).currentSuggestions = L.take 5
    ∧ getItem (step compiles st (.fetchResolve q (.json ⟨"ok", some L⟩))).suggestionCache
        (toLowerCase q) = some (L.take 5)
    ∧ (L.take 5).length = min 5 L.length
    ∧ (fetchSuggestions compiles q2
        (run compiles (step compiles st (.fetchResolve q (.json ⟨"ok", some L⟩))) evs)
        ).currentSuggestions = L.take 5
    ∧ (fetchSuggestions compiles q2
        (run compiles (step compiles st (.fetchResolve q (.json ⟨"ok", some L⟩))) evs)
        ).requests
      = (run compiles (step compiles st (.fetchResolve q (.json ⟨"ok", some L⟩))) evs).requests
    ∧ ((L.take 5 = []
          ∨ jsTrim (run compiles (step compiles st
              (.fetchResolve q (.json ⟨"ok", some L⟩))) evs).inputValue = ""
          ∨ compiles (jsTrim (run compiles (step compiles st
              (.fetchResolve q (.json ⟨"ok", some L⟩))) evs).inputValue) = true) →
        (fetchSuggestions compiles q2
          (run compiles (step compiles st (.fetchResolve q (.json ⟨"ok", some L⟩))) evs)
          ).items = (L.take 5).map suggestionItem
        ∧ (fetchSuggestions compiles q2
          (run compiles (step compiles st (.fetchResolve q (.json ⟨"ok", some L⟩))) evs)
          ).listActive = true) := by
  have hfirst : (step compiles st (.fetchResolve q (.json ⟨"ok", some L⟩))).currentSuggestions
        = L.take 5
      ∧ getItem (step compiles st (.fetchResolve q (.json ⟨"ok", some L⟩))).suggestionCache
        (toLowerCase q) = some (L.take 5) := by
    simp [step, hq, fetchSuggestionsResolve, getItem_setItem_same]
  have hlater := run_suggestionCache compiles (toLowerCase q) evs
    (step compiles st (.fetchResolve q (.json ⟨"ok", some L⟩))) hevs
  rw [hfirst.2, ← hq2] at hlater
  have hhit := fetchSuggestions_hit compiles q2
    (run compiles (step compiles st (.fetchResolve q (.json ⟨"ok", some L⟩))) evs)
    (L.take 5) hlater
  exact ⟨hfirst.1, hfirst.2, List.length_take _ _, hhit.1, hhit.2.1,
    fun hok => ⟨(hhit.2.2 hok).1, (hhit.2.2 hok).2.1⟩⟩

theorem suggestion_response_shown_and_cached_witness :
    (step plainText (run plainText initialState [.input "Par", .timerFire])
      (.fetchResolve "Par" (.json ⟨"ok", some resultsPa⟩))).currentSuggestions
      = resultsPa.take 5
    ∧ (fetchSuggestions plainText "PAR"
        (run plainText (step plainText (run plainText initialState [.input "Par", .timerFire])
          (.fetchResolve "Par" (.json ⟨"ok", some resultsPa⟩)))
        [.input "P", .timerFire, .keydown .escape, .input "PAR"])).items
      = (resultsPa.take 5).map suggestionItem
    ∧ (fetchSuggestions plainText "PAR"
        (run plainText (step plainText (run plainText initialState [.input "Par", .timerFire])
          (.fetchResolve "Par" (.json ⟨"ok", some resultsPa⟩)))
        [.input "P", .timerFire, .keydown .escape, .input "PAR"])).requests
      = [.search "Par"] :=
  ⟨(suggestion_response_shown_and_cached plainText
      (run plainText initialState [.input "Par", .timerFire])
      "Par" "PAR" resultsPa [.input "P", .timerFire, .keydown .escape, .input "PAR"]
      (by decide) (by decide) (by decide)).1,
   ((suggestion_response_shown_and_cached plainText
      (run plainText initialState [.input "Par", .timerFire])
      "Par" "PAR" resultsPa [.input "P", .timerFire, .keydown .escape, .input "PAR"]
      (by decide) (by decide) (by decide)).2.2.2.2.2 (Or.inr (Or.inr (by decide)))).1,
   by decide⟩

/-- What the code does with an input text that is not a valid pattern: with
"*par" typed, the response with three results is cached and becomes
`currentSuggestions`, but `createSearchItem` throws on the first of them, so
no item is rendered and the dropdown is not opened. -/
theorem invalid_pattern_renders_nothing :
    plainText "*par" = false
    ∧ (run plainText initialState
        [.input "*par", .timerFire,
         .fetchResolve "*par" (.json ⟨"ok", some resultsPa⟩)]).currentSuggestions = resultsPa
    ∧ (run plainText initialState
        [.input "*par", .timerFire,
         .fetchResolve "*par" (.json ⟨"ok", some resultsPa⟩)]).items = []
    ∧ (run plainText initialState
        [.input "*par", .timerFire,
         .fetchResolve "*par" (.json ⟨"ok", some resultsPa⟩)]).listActive = false := by
  decide

/-- C16: when a suggestion fetch fails (the request or the parse throws, or
the status is not "ok"), the rest of `fetchSuggestions` changes nothing: the
visible list, the cache, the selection and the rendered dropdown are as
before, no alert is raised and no exception escapes. -/
theorem failed_suggestion_fetch_is_silent (compiles : String → Bool) (st : State)
    (q : String) (resp : Fetched SearchResponse)
    (hfail : (∃ e, resp = .threw e) ∨ (∃ d, resp = .json d ∧ d.status ≠ "ok")) :
    fetchSuggestionsResolve compiles q resp st = st
    ∧ (step compiles st (.fetchResolve q resp)).currentSuggestions = st.currentSuggestions
    ∧ (step compiles st (.fetchResolve q resp)).suggestionCache = st.suggestionCache
    ∧ (step compiles st (.fetchResolve q resp)).selectedIndex = st.selectedIndex
    ∧ (step compiles st (.fetchResolve q resp)).items = st.items
    ∧ (step compiles st (.fetchResolve q resp)).listActive = st.listActive
    ∧ (step compiles st (.fetchResolve q resp)).alerts = st.alerts
    ∧ (step compiles st (.fetchResolve q resp)).uncaught = st.uncaught := by
  have hres : ∀ s : State, fetchSuggestionsResolve compiles q resp s = s := by
    intro s
    rcases hfail with ⟨e, rfl⟩ | ⟨d, rfl, hd⟩
    · rfl
    · simp [fetchSuggestionsResolve, hd]
  refine ⟨hres st, ?_, ?_, ?_, ?_, ?_, ?_, ?_⟩ <;>
    (simp only [step]; split <;> simp [hres])

theorem failed_suggestion_fetch_is_silent_witness :
    fetchSuggestionsResolve plainText "pari" (.json ⟨"error", none⟩)
        (run plainText initialState staleTrace)
      = run plainText initialState staleTrace
    ∧ (step plainText (run plainText initialState staleTrace)
        (.fetchResolve "par" (.threw true))).currentSuggestions
      = (run plainText initialState staleTrace).currentSuggestions :=
  ⟨(failed_suggestion_fetch_is_silent plainText (run plainText initialState staleTrace) "pari"
      (.json ⟨"error", none⟩) (Or.inr ⟨_, rfl, by decide⟩)).1,
   (failed_suggestion_fetch_is_silent plainText (run plainText initialState staleTrace) "par"
      (.threw true) (Or.inl ⟨_, rfl⟩)).2.1⟩

/-! ### Favourites -/

/-- C15: on a favourites list without duplicates `toggleFavorite` leaves a
list without duplicates; for a current reading with station name `n` and
`city` the part of `n` before the first comma, it removes `city` when present
(the other entries stay, in order) and appends it once when absent, so the
membership of `city` is flipped and that of every other name is unchanged. -/
theorem toggleFavorite_set_semantics (st : State) (hnodup : st.favorites.Nodup) :
    (toggleFavorite st).favorites.Nodup
    ∧ ∀ r c n, st.currentCityData = some r → r.city = some c → c.name = some n →
        (firstPart n ∈ st.favorites →
          (toggleFavorite st).favorites = st.favorites.filter (fun x => x != firstPart n)
          ∧ (toggleFavorite st).favorites = st.favorites.erase (firstPart n)
          ∧ firstPart n ∉ (toggleFavorite st).favorites)
        ∧ (firstPart n ∉ st.favorites →
          (toggleFavorite st).favorites = st.favorites ++ [firstPart n]
          ∧ (toggleFavorite st).favorites.count (firstPart n) = 1)
        ∧ (firstPart n ∈ (toggleFavorite st).favorites ↔ firstPart n ∉ st.favorites)
        ∧ ∀ x, x ≠ firstPart n → (x ∈ (toggleFavorite st).favorites ↔ x ∈ st.favorites) := by
  have hfilter : ∀ city : String,
      st.favorites.filter (fun x => x != city) = st.favorites.erase city := by
    intro city
    rw [List.Nodup.erase_eq_filter hnodup]
  constructor
  · unfold toggleFavorite
    split
    · exact hnodup
    · split
      · exact hnodup
      · rename_i n _
        simp only
        split
        · exact hnodup.filter _
        · rename_i hnot
          have hnm : firstPart n ∉ st.favorites := by simpa using hnot
          exact List.Nodup.append hnodup (List.nodup_singleton _) (by simpa using hnm)
  · intro r c n hcur hcity hname
    have hbind : r.city.bind (fun c => c.name) = some n := by simp [hcity, hname]
    have hin : firstPart n ∈ st.favorites →
        (toggleFavorite st).favorites = st.favorites.filter (fun x => x != firstPart n) := by
      intro hmem
      simp [toggleFavorite, hcur, hbind, hmem]
    have hout : firstPart n ∉ st.favorites →
        (toggleFavorite st).favorites = st.favorites ++ [firstPart n] := by
      intro hmem
      simp [toggleFavorite, hcur, hbind, hmem]
    refine ⟨fun hmem => ⟨hin hmem, ?_, ?_⟩, fun hmem => ⟨hout hmem, ?_⟩, ?_, ?_⟩
    · rw [hin hmem, hfilter]
    · rw [hin hmem]
      simp
    · rw [hout hmem]
      simp [List.count_eq_zero_of_not_mem hmem]
    · by_cases hmem : firstPart n ∈ st.favorites
      · rw [hin hmem]
        simp [hmem]
      · rw [hout hmem]
        simp [hmem]
    · intro x hx
      by_cases hmem : firstPart n ∈ st.favorites
      · rw [hin hmem]
        simp [hx]
      · rw [hout hmem]
        simp [hx]

theorem toggleFavorite_set_semantics_witness :
    (toggleFavorite puneShown).favorites.Nodup
    ∧ (toggleFavorite puneShown).favorites = ["Delhi"]
    ∧ (toggleFavorite (toggleFavorite puneShown)).favorites = ["Delhi", "Pune"] :=
  ⟨(toggleFavorite_set_semantics puneShown (by decide)).1, by decide, by decide⟩

/-- For a reading that is not a nearest-station fallback and has a non-empty
station name, `updateUI` and `toggleFavorite` use the same name, so a reading
just added to the favourites is rendered with the button active. -/
theorem favorite_key_consistent_exact_match (st : State) (r : Reading) (c : City)
    (n : String) (aqi : Int)
    (hcur : st.currentCityData = some r) (hcity : r.city = some c)
    (hname : c.name = some n) (hn : n ≠ "") (hnear : r.isNearest = false)
    (haqi : r.aqi = some aqi) (habsent : firstPart n ∉ st.favorites) :
    displayName r = firstPart n
    ∧ (toggleFavorite st).favorites = st.favorites ++ [firstPart n]
    ∧ (updateUI (some r) (toggleFavorite st)).favActive = true := by
  have hbind : r.city.bind (fun c => c.name) = some n := by simp [hcity, hname]
  have hdisp : displayName r = firstPart n := by
    simp [displayName, hnear, hbind, hn]
  have hfav : (toggleFavorite st).favorites = st.favorites ++ [firstPart n] := by
    simp [toggleFavorite, hcur, hbind, habsent]
  refine ⟨hdisp, hfav, ?_⟩
  simp [updateUI, haqi, hdisp, hfav]

/-- C18, evaluated on the code: after the fallback lookup of "Unknownville"
the reading of station "Hebbal, Bengaluru, India" is shown under the name
"Unknownville"; `toggleFavorite` adds "Hebbal" and marks the button active,
but rendering the same reading again tests "Unknownville" against the
favourites and marks the button inactive. -/
theorem favorite_key_differs_for_nearest_reading :
    afterFallback.currentCityData
      = some { aqi := some 112, city := some ⟨some "Hebbal, Bengaluru, India", []⟩,
               isNearest := true, searchedName := some "Unknownville" }
    ∧ afterFallback.cityNameText = "Unknownville"
    ∧ afterFallback.favorites = []
    ∧ (toggleFavorite afterFallback).favorites = ["Hebbal"]
    ∧ (toggleFavorite afterFallback).favActive = true
    ∧ (updateUI afterFallback.currentCityData (toggleFavorite afterFallback)).favActive = false
    ∧ (updateUI afterFallback.currentCityData (toggleFavorite afterFallback)).cityNameText
      = "Unknownville" := by
  decide

/-! ### Colour utility -/

/-- C17, evaluated on the code: for "#00e676" (red 0x00, green 0xe6, blue
0x76) and amount -70 the darkened channels are 0x00, 0xa0 and 0x30, which in
place would read "#00a030"; `adjustColor` returns "#3000a0", with the blue
value in the red position, the red value in the green position and the green
value in the blue position. -/
theorem adjustColor_misplaces_channels :
    parseInt16 "00e676" = some (0x00 * 65536 + 0xe6 * 256 + 0x76)
    ∧ clampChannel (0x00 + -70) = 0x00
    ∧ clampChannel (0xe6 + -70) = 0xa0
    ∧ clampChannel (0x76 + -70) = 0x30
    ∧ adjustColor "#00e676" (-70) = "#3000a0"
    ∧ adjustColor "#00e676" (-70) ≠ "#00a030" := by
  decide

/-! ### Debounce -/

/-- Nothing is run before the only pending timer is due. -/
theorem advance_before_due {α : Type} (d : Debounce α) (tm : Timer α) (now : Nat)
    (htimers : d.timers = [tm]) (hdue : now < tm.due) : advance now d = d := by
  have hnot : ¬ tm.due ≤ now := by omega
  simp [advance, htimers, runTimers, List.filter_cons, hnot, earliest]

/-- Once the only pending timer is due it runs, once. -/
theorem advance_after_due {α : Type} (d : Debounce α) (tm : Timer α) (now : Nat)
    (htimers : d.timers = [tm]) (hdue : tm.due ≤ now) :
    advance now d = { d with timers := [], invoked := d.invoked ++ [(tm.due, tm.args)] } := by
  simp only [advance, htimers, List.length_singleton, runTimers, List.filter_cons, hdue,
    decide_True, if_true, List.filter_nil, earliest]
  simp only [later, runTimers]
  cases d.timeout <;> simp [clearTimeout]

/-- A call made while at most one timer is pending, and before it is due,
leaves exactly the timer of that call. -/
theorem executedFunction_single {α : Type} (d : Debounce α) (now : Nat) (args : α)
    (hstate : d.timers = [] ∨ ∃ tm, d.timers = [tm] ∧ d.timeout = some tm.id ∧ now < tm.due) :
    executedFunction now args d
      = { d with timers := [⟨d.nextId, now + d.wait, args⟩],
                 timeout := some d.nextId, nextId := d.nextId + 1 } := by
  rcases hstate with hnil | ⟨tm, htimers, htimeout, hdue⟩
  · have hadv : advance now d = d := by simp [advance, hnil, runTimers]
    simp only [executedFunction, hadv, hnil]
    cases d.timeout <;> simp [clearTimeout]
  · simp only [executedFunction, advance_before_due d tm now htimers hdue, htimers, htimeout]
    simp [clearTimeout]

/-- After a run of calls, each made before the timer of the previous one is
due, only the timer of the last call is pending and nothing has been invoked. -/
theorem runCalls_single {α : Type} (w : Nat) (cs : List (Nat × α)) :
    ∀ (c : Nat × α) (d : Debounce α), d.wait = w → d.invoked = [] →
      (d.timers = [] ∨ ∃ tm, d.timers = [tm] ∧ d.timeout = some tm.id ∧ c.1 < tm.due) →
      List.Chain (fun a b => a.1 < b.1 ∧ b.1 < a.1 + w) c cs →
      ∃ id, (runCalls d (c :: cs)).timers
          = [⟨id, ((c :: cs).getLast (List.cons_ne_nil c cs)).1 + w,
              ((c :: cs).getLast (List.cons_ne_nil c cs)).2⟩]
        ∧ (runCalls d (c :: cs)).timeout = some id
        ∧ (runCalls d (c :: cs)).invoked = [] := by
  induction cs with
  | nil =>
    intro c d hw hinv hstate _
    refine ⟨d.nextId, ?_, ?_, ?_⟩ <;>
      simp [runCalls, executedFunction_single d c.1 c.2 hstate, hw, hinv]
  | cons c2 rest ih =>
    intro c d hw hinv hstate hchain
    have hstep := executedFunction_single d c.1 c.2 hstate
    have hrun : runCalls d (c :: c2 :: rest)
        = runCalls (executedFunction c.1 c.2 d) (c2 :: rest) := rfl
    obtain ⟨hgap, hrest⟩ := List.chain_cons.mp hchain
    have hnext := ih c2 (executedFunction c.1 c.2 d) (by rw [hstep]; exact hw)
      (by rw [hstep]; exact hinv)
      (Or.inr ⟨⟨d.nextId, c.1 + d.wait, c.2⟩, by rw [hstep], by rw [hstep],
        by simpa [hw] using hgap.2⟩) hrest
    rw [hrun]
    simpa [List.getLast_cons] using hnext

/-- C14: for a wait `w > 0` and calls of the debounced function at increasing
times, each less than `w` after the previous one, followed by silence: nothing
is invoked during the calls nor before `tn + w`, and from `tn + w` on `func`
has been invoked exactly once, at `tn + w`, with the arguments of the last
call. -/
theorem debounce_invokes_last_call_once {α : Type} (w : Nat) (hw : 0 < w)
    (c : Nat × α) (cs : List (Nat × α))
    (hgaps : List.Chain (fun a b => a.1 < b.1 ∧ b.1 < a.1 + w) c cs) (T : Nat) :
    (runCalls (debounce w) (c :: cs)).invoked = []
    ∧ (T < ((c :: cs).getLast (List.cons_ne_nil c cs)).1 + w →
        (advance T (runCalls (debounce w) (c :: cs))).invoked = [])
    ∧ (((c :: cs).getLast (List.cons_ne_nil c cs)).1 + w ≤ T →
        (advance T (runCalls (debounce w) (c :: cs))).invoked
          = [(((c :: cs).getLast (List.cons_ne_nil c cs)).1 + w,
              ((c :: cs).getLast (List.cons_ne_nil c cs)).2)]
        ∧ (advance T (runCalls (debounce w) (c :: cs))).timers = []) := by
  have _ := hw
  obtain ⟨id, htimers, _, hinv⟩ :=
    runCalls_single w cs c (debounce w) rfl rfl (Or.inl rfl) hgaps
  refine ⟨hinv, fun hT => ?_, fun hT => ?_⟩
  · rw [advance_before_due _ _ T htimers hT, hinv]
  · rw [advance_after_due _ _ T htimers hT]
    simp [hinv]

theorem debounce_invokes_last_call_once_witness :
    (runCalls (debounce 300) keystrokes).invoked = []
    ∧ (advance 449 (runCalls (debounce 300) keystrokes)).invoked = []
    ∧ (advance 450 (runCalls (debounce 300) keystrokes)).invoked = [(450, "pari")]
    ∧ (advance 5000 (runCalls (debounce 300) keystrokes)).invoked = [(450, "pari")]
    ∧ (debouncedSearch plainText "pari" initialState).requests = [.search "pari"] :=
  ⟨(debounce_invokes_last_call_once 300 (by decide) (0, "p")
      [(50, "pa"), (100, "par"), (150, "pari")] (by simp) 449).1,
   (debounce_invokes_last_call_once 300 (by decide) (0, "p")
      [(50, "pa"), (100, "par"), (150, "pari")] (by simp) 449).2.1 (by decide),
   ((debounce_invokes_last_call_once 300 (by decide) (0, "p")
      [(50, "pa"), (100, "par"), (150, "pari")] (by simp) 450).2.2 (by decide)).1,
   ((debounce_invokes_last_call_once 300 (by decide) (0, "p")
      [(50, "pa"), (100, "par"), (150, "pari")] (by simp) 5000).2.2 (by decide)).1,
   by decide⟩

end AqiWeather
